import Mathlib

/-!
Verification of the College-Capstone bidirectional translator.

This file shallowly embeds the core pipeline of the repository:
the C++-side lexer (`lexercpp.py`), parser (`parsercpp.py`), semantic
analyzer (`semantic_analyzer_cpp.py`) and code generator
(`convertercpp.py`), and the Python-side lexer (`python_lexer.py`),
parser (`python_parser.py`), analyzer (`python_semantic_analyzer.py`)
and code generator (`python_to_cpp_converter.py`).

Python dictionaries tagged with a "type" field become one shared
inductive `Node`; Python exceptions become `Except String`; the
dynamically-growing scope stack becomes an explicit list of frames.
General recursion that Python expresses with unbounded loops is given
an explicit fuel parameter.
-/

/-! ## Python string primitives used by the sources -/

/-- Whitespace characters recognised by Python `str.strip` / `\s` (ASCII range,
which is all the sources use). -/
def isPySpace (c : Char) : Bool :=
  c = ' ' || c = '\t' || c = '\n' || c = '\r' || c = '\x0b' || c = '\x0c'

/-- Python `str.lstrip()`. -/
def pyLstrip (s : String) : String := ⟨s.data.dropWhile isPySpace⟩

/-- Python `str.rstrip()`. -/
def pyRstrip (s : String) : String := ⟨(s.data.reverse.dropWhile isPySpace).reverse⟩

/-- Python `str.strip()`. -/
def pyStrip (s : String) : String := pyRstrip (pyLstrip s)

/-- Python `str.strip(c)` for a single character argument. -/
def pyStripChar (c : Char) (s : String) : String :=
  ⟨((s.data.dropWhile (· = c)).reverse.dropWhile (· = c)).reverse⟩

/-- Python `str.startswith`. -/
def pyStartsWith (s pre : String) : Bool := pre.data.isPrefixOf s.data

/-- Substring containment on character lists (Python `sub in s`). -/
def listHasInfix : List Char → List Char → Bool
  | _, [] => false
  | sub, c :: rest => sub.isPrefixOf (c :: rest) || listHasInfix sub rest

/-- Python `sub in s` (with the convention `"" in s` is true). -/
def pyContains (s sub : String) : Bool :=
  sub.data.isPrefixOf s.data || listHasInfix sub.data s.data

/-- Non-overlapping left-to-right replacement on character lists, fuelled by
the length of the scanned list: every step consumes at least one character
(for a non-empty pattern), so `l.length` steps always suffice. -/
def listReplaceAux (old new : List Char) : Nat → List Char → List Char
  | _, [] => []
  | 0, l => l
  | fuel+1, c :: rest =>
    if old ≠ [] ∧ old.isPrefixOf (c :: rest) then
      new ++ listReplaceAux old new fuel ((c :: rest).drop old.length)
    else
      c :: listReplaceAux old new fuel rest

/-- Non-overlapping left-to-right replacement on character lists
(for a non-empty pattern). -/
def listReplace (old new : List Char) (l : List Char) : List Char :=
  listReplaceAux old new l.length l

/-- Python `str.replace(old, new)` (the sources never call it with an empty
`old`, for which Python behaves differently). -/
def pyReplace (s old new : String) : String :=
  if old.data = [] then s else ⟨listReplace old.data new.data s.data⟩

/-- Python `sep.join(xs)`. -/
def pyJoin (sep : String) : List String → String
  | [] => ""
  | [x] => x
  | x :: y :: rest => x ++ sep ++ pyJoin sep (y :: rest)

/-- Numeric value of a list of decimal digits. -/
def digitsToNat : List Char → Nat
  | [] => 0
  | ds => ds.foldl (fun acc c => acc * 10 + (c.toNat - '0'.toNat)) 0

/-- Python `int(s)`: optional surrounding whitespace, optional sign, decimal
digits; anything else raises `ValueError`. -/
def pyInt (s : String) : Except String Int :=
  let t := pyStrip s
  let core : Option (Int × List Char) :=
    match t.data with
    | '-' :: rest => some (-1, rest)
    | '+' :: rest => some (1, rest)
    | l => some (1, l)
  match core with
  | some (sign, ds) =>
    if ds ≠ [] ∧ ds.all (·.isDigit) then
      .ok (sign * (digitsToNat ds : Int))
    else
      .error ("ValueError: invalid literal for int() with base 10: " ++ s)
  | none => .error "ValueError"

/-! ## Tokens and the shared AST vocabulary

Both parsers build Python dictionaries carrying a `"type"` discriminant.
Each dictionary shape that either parser can construct becomes one
constructor below.  `WHILE_LOOP` and `FOR_LOOP` dictionaries have two
shapes (the C++ parser stores a statement body and init/condition/increment,
the Python parser stores a statement-list body and range arguments), so each
gets one constructor per shape; both shapes carry the same discriminant.
`unsupported tag` stands for any other dictionary: one carrying just a
`"type"` field with an arbitrary value and no other keys. -/

structure Token where
  type : String
  value : String
deriving DecidableEq, Repr

inductive Node where
  | program (statements : List Node)
  | functionDefinition (returnType funcName : String) (body : List Node)
  | ioStatement (ioOperator : String) (expressions : List Node)
  | ioStatementPy (ioOperator : String) (expression : Node)
  | variableDeclaration (varType varName : String) (initializer : Option Node)
  | assignment (varName : String) (expression : Node)
  | expressionStatement (expression : Node)
  | forLoopC (init condition : Node) (increment : Option Node) (body : Node)
  | forLoopPyLimit (iterator : String) (limit : Node) (body : List Node)
  | forLoopPyStartStop (iterator : String) (rangeStart rangeStop : Node) (body : List Node)
  | forLoopPyFull (iterator : String) (rangeStart rangeStop rangeStep : Node) (body : List Node)
  | whileLoopC (condition body : Node)
  | whileLoopPy (condition : Node) (body : List Node)
  | increment (varName operator : String)
  | binaryExpression (operator : String) (left right : Node)
  | stringLiteral (value : String)
  | number (value : String)
  | identifier (value : String)
  | returnStatement (expression : Node)
  | ifStatement (condition trueBranch : Node) (falseBranch : Option Node)
  | block (statements : List Node)
  | printStatement (args : List Node)
  | functionCall (funcName : String) (args : List Node)
  | booleanLiteral (value : String)
  | emptyStatement
  | unsupported (tag : String)
deriving Repr

/-- The `"type"` field of the dictionary a `Node` stands for. -/
def Node.tag : Node → String
  | .program _ => "PROGRAM"
  | .functionDefinition _ _ _ => "FUNCTION_DEFINITION"
  | .ioStatement _ _ => "IO_STATEMENT"
  | .ioStatementPy _ _ => "IO_STATEMENT"
  | .variableDeclaration _ _ _ => "VARIABLE_DECLARATION"
  | .assignment _ _ => "ASSIGNMENT"
  | .expressionStatement _ => "EXPRESSION_STATEMENT"
  | .forLoopC _ _ _ _ => "FOR_LOOP"
  | .forLoopPyLimit _ _ _ => "FOR_LOOP"
  | .forLoopPyStartStop _ _ _ _ => "FOR_LOOP"
  | .forLoopPyFull _ _ _ _ _ => "FOR_LOOP"
  | .whileLoopC _ _ => "WHILE_LOOP"
  | .whileLoopPy _ _ => "WHILE_LOOP"
  | .increment _ _ => "INCREMENT"
  | .binaryExpression _ _ _ => "BINARY_EXPRESSION"
  | .stringLiteral _ => "STRING_LITERAL"
  | .number _ => "NUMBER"
  | .identifier _ => "IDENTIFIER"
  | .returnStatement _ => "RETURN_STATEMENT"
  | .ifStatement _ _ _ => "IF_STATEMENT"
  | .block _ => "BLOCK"
  | .printStatement _ => "PRINT_STATEMENT"
  | .functionCall _ _ => "FUNCTION_CALL"
  | .booleanLiteral _ => "BOOLEAN_LITERAL"
  | .emptyStatement => "EMPTY_STATEMENT"
  | .unsupported tag => tag

/-! ## Structural node equality

Python compares AST dictionaries with `==`, which is structural equality on
keys and values.  Two differently-shaped dictionaries (different key sets)
are never equal, which matches constructor-wise comparison below. -/

mutual

def nodeBEq : Node → Node → Bool
  | .program a, .program b => nodeListBEq a b
  | .functionDefinition r1 f1 b1, .functionDefinition r2 f2 b2 =>
      r1 == r2 && f1 == f2 && nodeListBEq b1 b2
  | .ioStatement o1 e1, .ioStatement o2 e2 => o1 == o2 && nodeListBEq e1 e2
  | .ioStatementPy o1 e1, .ioStatementPy o2 e2 => o1 == o2 && nodeBEq e1 e2
  | .variableDeclaration t1 n1 i1, .variableDeclaration t2 n2 i2 =>
      t1 == t2 && n1 == n2 && nodeOptBEq i1 i2
  | .assignment n1 e1, .assignment n2 e2 => n1 == n2 && nodeBEq e1 e2
  | .expressionStatement e1, .expressionStatement e2 => nodeBEq e1 e2
  | .forLoopC i1 c1 n1 b1, .forLoopC i2 c2 n2 b2 =>
      nodeBEq i1 i2 && nodeBEq c1 c2 && nodeOptBEq n1 n2 && nodeBEq b1 b2
  | .forLoopPyLimit v1 l1 b1, .forLoopPyLimit v2 l2 b2 =>
      v1 == v2 && nodeBEq l1 l2 && nodeListBEq b1 b2
  | .forLoopPyStartStop v1 a1 s1 b1, .forLoopPyStartStop v2 a2 s2 b2 =>
      v1 == v2 && nodeBEq a1 a2 && nodeBEq s1 s2 && nodeListBEq b1 b2
  | .forLoopPyFull v1 a1 s1 t1 b1, .forLoopPyFull v2 a2 s2 t2 b2 =>
      v1 == v2 && nodeBEq a1 a2 && nodeBEq s1 s2 && nodeBEq t1 t2 && nodeListBEq b1 b2
  | .whileLoopC c1 b1, .whileLoopC c2 b2 => nodeBEq c1 c2 && nodeBEq b1 b2
  | .whileLoopPy c1 b1, .whileLoopPy c2 b2 => nodeBEq c1 c2 && nodeListBEq b1 b2
  | .increment n1 o1, .increment n2 o2 => n1 == n2 && o1 == o2
  | .binaryExpression o1 l1 r1, .binaryExpression o2 l2 r2 =>
      o1 == o2 && nodeBEq l1 l2 && nodeBEq r1 r2
  | .stringLiteral v1, .stringLiteral v2 => v1 == v2
  | .number v1, .number v2 => v1 == v2
  | .identifier v1, .identifier v2 => v1 == v2
  | .returnStatement e1, .returnStatement e2 => nodeBEq e1 e2
  | .ifStatement c1 t1 f1, .ifStatement c2 t2 f2 =>
      nodeBEq c1 c2 && nodeBEq t1 t2 && nodeOptBEq f1 f2
  | .block s1, .block s2 => nodeListBEq s1 s2
  | .printStatement a1, .printStatement a2 => nodeListBEq a1 a2
  | .functionCall f1 a1, .functionCall f2 a2 => f1 == f2 && nodeListBEq a1 a2
  | .booleanLiteral v1, .booleanLiteral v2 => v1 == v2
  | .emptyStatement, .emptyStatement => true
  | .unsupported t1, .unsupported t2 => t1 == t2
  | _, _ => false

def nodeListBEq : List Node → List Node → Bool
  | [], [] => true
  | a :: as, b :: bs => nodeBEq a b && nodeListBEq as bs
  | _, _ => false

def nodeOptBEq : Option Node → Option Node → Bool
  | none, none => true
  | some a, some b => nodeBEq a b
  | _, _ => false

end

/-! ## semantic_analyzer_cpp.py — scope stack and helpers

The source keeps `scope_stack` as a Python list with the global frame first
and the innermost frame last (`scope_stack[-1]` is the current frame,
`reversed(scope_stack)` iterates innermost-to-outermost).  Here the stack is
kept innermost-first, so the head is the current frame, `enter_scope` is
cons, and lookup walks the list front to back; the global frame
`scope_stack[0]` is the last element. -/

inductive VInfo where
  | vstr (t : String)
  | vfunc (params : List (String × String)) (ret : String)
deriving DecidableEq, Repr

/-- Python `str(...)` of a value stored in a frame, as interpolated into
diagnostic messages (the function entry is the dictionary literal built in
`analyze_function`, whose `params` is always empty for ASTs this parser
produces). -/
def vinfoRepr : VInfo → String
  | .vstr t => t
  | .vfunc _ ret =>
      "\x7b'type': 'function', 'params': \x7b\x7d, 'return_type': '" ++ ret ++ "'\x7d"

/-- Python `str(...)` of an optional frame value (`None` prints as `None`). -/
def showTypeOpt : Option VInfo → String
  | none => "None"
  | some v => vinfoRepr v

abbrev Scope := List (String × VInfo)
abbrev Stack := List Scope

/-- `name in scope` on a frame dictionary. -/
def scopeHasKey (sc : Scope) (name : String) : Bool := sc.any (·.1 == name)

/-- `scope[name]` on a frame dictionary (keys are unique because entries are
only ever inserted when absent). -/
def scopeGet (sc : Scope) (name : String) : Option VInfo :=
  (sc.find? (·.1 == name)).map (·.2)

/-- Replace the current (innermost) frame; the analyzer never operates on an
empty stack (it starts with one global frame and scope entry/exit is
balanced). -/
def stackUpdateHead (st : Stack) (f : Scope → Scope) : Stack :=
  match st with
  | [] => []
  | s :: rest => f s :: rest

/-- Replace the global frame `scope_stack[0]` (the last element here). -/
def stackUpdateLast (st : Stack) (f : Scope → Scope) : Stack :=
  match st with
  | [] => []
  | [s] => [f s]
  | s :: rest => s :: stackUpdateLast rest f

/-- `SemanticAnalyzer.current_scope`: the innermost frame. -/
def cppCurrentScope (st : Stack) : Scope := st.headD []

/-- `SemanticAnalyzer.lookup_variable`: search every frame innermost to
outermost, returning the first binding found. -/
def cppLookupVariable : Stack → String → Option VInfo
  | [], _ => none
  | sc :: rest, name =>
      if scopeHasKey sc name then scopeGet sc name else cppLookupVariable rest name

/-- Python truthiness of a value returned by `lookup_variable`: `None` and the
empty string are falsy, a non-empty type string or a function-info dictionary
is truthy. -/
def pyTruthyVInfo : Option VInfo → Bool
  | none => false
  | some (.vstr t) => t ≠ ""
  | some (.vfunc _ _) => true

/-- `SemanticAnalyzer.declare_variable`: redeclaration error if the name is
bound in the current frame, shadowing warning if it is bound in an outer
frame, otherwise bind it in the current frame. -/
def cppDeclareVariable (varName : String) (varType : VInfo) (errors : List String)
    (isMember : Bool) (st : Stack) : List String × Stack :=
  let scope := cppCurrentScope st
  if scopeHasKey scope varName then
    (errors ++ ["Error: Variable '" ++ varName ++ "' already declared in this scope."], st)
  else if (cppLookupVariable st varName).isSome && !isMember then
    (errors ++ ["Warning: Variable '" ++ varName ++ "' shadows a declaration in an outer scope."], st)
  else
    (errors, stackUpdateHead st (fun sc => sc ++ [(varName, varType)]))

/-- `SemanticAnalyzer.evaluate_expression_type`.  Raises (`TypeError`) when a
plain variable is called as a function, hence the `Except`. -/
def cppEvaluateExpressionType (st : Stack) :
    Node → String → List String → Except String (Option VInfo × List String)
  | .number _, _, errors => .ok (some (.vstr "int"), errors)
  | .identifier v, context, errors =>
      match cppLookupVariable st v with
      | none =>
          .ok (none, errors ++
            ["Error: Variable '" ++ v ++ "' not declared in " ++ context ++ "."])
      | some t => .ok (some t, errors)
  | .binaryExpression op l r, context, errors => do
      let (leftType, errors) ←
        cppEvaluateExpressionType st l ("left operand of '" ++ op ++ "' in " ++ context) errors
      let (rightType, errors) ←
        cppEvaluateExpressionType st r ("right operand of '" ++ op ++ "' in " ++ context) errors
      if op ∈ [">", "<", ">=", "<=", "==", "!="] then
        -- source: `if left_type and right_type:` (truthiness of both)
        if pyTruthyVInfo leftType && pyTruthyVInfo rightType then
          if leftType = rightType then .ok (some (.vstr "bool"), errors)
          else
            .ok (none, errors ++
              ["Error: Type mismatch in " ++ context ++ " for operator '" ++ op ++
               "'. Cannot compare '" ++ showTypeOpt leftType ++ "' with '" ++
               showTypeOpt rightType ++ "'."])
        else
          .ok (none, errors)
      else
        if leftType = some (.vstr "float") || rightType = some (.vstr "float") then
          .ok (some (.vstr "float"), errors)
        else if leftType = some (.vstr "int") && rightType = some (.vstr "int") then
          .ok (some (.vstr "int"), errors)
        else
          .ok (none, errors ++
            ["Error: Invalid types '" ++ showTypeOpt leftType ++ "' and '" ++
             showTypeOpt rightType ++ "' for operator '" ++ op ++ "' in " ++ context ++ "."])
  | .stringLiteral _, _, errors => .ok (some (.vstr "string"), errors)
  | .functionCall fname _, context, errors =>
      -- `if func_info and func_info['type'] == 'function':` — indexing a plain
      -- type string with 'type' raises TypeError
      match cppLookupVariable st fname with
      | some (.vfunc _ ret) => .ok (some (.vstr ret), errors)
      | some (.vstr t) =>
          if t ≠ "" then .error "TypeError: string indices must be integers"
          else
            .ok (none, errors ++
              ["Error: Function '" ++ fname ++ "' not declared in " ++ context ++ "."])
      | none =>
          .ok (none, errors ++
            ["Error: Function '" ++ fname ++ "' not declared in " ++ context ++ "."])
  | .booleanLiteral _, _, errors => .ok (some (.vstr "bool"), errors)
  | e, context, errors =>
      .ok (none, errors ++
        ["Error: Unsupported expression type '" ++ e.tag ++ "' in " ++ context ++ "."])

/-- `SemanticAnalyzer._is_type_compatible`. -/
def cppIsTypeCompatible (declaredType : String) (exprType : VInfo) : Bool :=
  if exprType = .vstr declaredType then true
  else if declaredType ∈ ["int", "float"] &&
      (exprType = .vstr "int" || exprType = .vstr "float") then true
  else if declaredType = "string" && exprType = .vstr "string" then true
  else false

/-- `SemanticAnalyzer._analyze_variable_declaration` on a declaration node
(the constructor always carries `var_name` and `var_type`).  Note the guard
`if self.lookup_variable(var_name):` fires for a binding in ANY frame, so
`declare_variable` is only reached for wholly-unbound names. -/
def cppAnalyzeVariableDeclaration (varType varName : String) (initializer : Option Node)
    (errors : List String) (st : Stack) : Except String (List String × Stack) := do
  let (errors, st) :=
    if pyTruthyVInfo (cppLookupVariable st varName) then
      (errors ++ ["Error: Variable '" ++ varName ++ "' already declared."], st)
    else
      cppDeclareVariable varName (.vstr varType) errors false st
  match initializer with
  | none => .ok (errors, st)
  | some init => do
      let (initType, errors) ←
        cppEvaluateExpressionType st init ("initializer for '" ++ varName ++ "'") errors
      match initType with
      | some it =>
          -- source: `if init_type and not self._is_type_compatible(...)`
          if pyTruthyVInfo (some it) && !cppIsTypeCompatible varType it then
            .ok (errors ++
              ["Error: Type mismatch in variable declaration: '" ++ varName ++
               "' declared as '" ++ varType ++ "' but initialized with type '" ++
               vinfoRepr it ++ "'."], st)
          else .ok (errors, st)
      | none => .ok (errors, st)

/-- `SemanticAnalyzer.check_assignment` on an assignment node. -/
def cppCheckAssignment (varName : String) (expression : Node) (errors : List String)
    (st : Stack) : Except String (List String × Stack) := do
  match cppLookupVariable st varName with
  | none => .ok (errors ++ ["Error: Variable '" ++ varName ++ "' not declared."], st)
  | some varType => do
      let (exprType, errors) ←
        cppEvaluateExpressionType st expression ("assignment to '" ++ varName ++ "'") errors
      match exprType with
      | some et =>
          -- source: `if expr_type and var_type != expr_type:`
          if pyTruthyVInfo (some et) && varType ≠ et then
            .ok (errors ++
              ["Error: Type mismatch in assignment to '" ++ varName ++ "'. Expected " ++
               vinfoRepr varType ++ ", got " ++ vinfoRepr et ++ "."], st)
          else .ok (errors, st)
      | none => .ok (errors, st)

/-- `SemanticAnalyzer.analyze_increment` (pure: it only appends diagnostics). -/
def cppAnalyzeIncrement (varName : String) (errors : List String) (st : Stack) :
    List String :=
  match cppLookupVariable st varName with
  | none => errors ++ ["Error: Variable '" ++ varName ++ "' not declared for increment operation."]
  | some vt =>
      if vt ∉ [VInfo.vstr "int", VInfo.vstr "float"] then
        errors ++ ["Warning: Increment operation on non-numeric type '" ++ vinfoRepr vt ++
                   "' for variable '" ++ varName ++ "'."]
      else errors

/-- Dict-style access used by `analyze_for_loop`: `'var_name' in node`. -/
def nodeVarNameField : Node → Option String
  | .variableDeclaration _ n _ => some n
  | .assignment n _ => some n
  | .increment n _ => some n
  | _ => none

/-- Dict-style access used by `analyze_for_loop`: `'expression' in node`. -/
def nodeExpressionField : Node → Option Node
  | .assignment _ e => some e
  | .expressionStatement e => some e
  | .returnStatement e => some e
  | _ => none

/-- `SemanticAnalyzer.analyze_expression_statement` (the statement constructor
always carries its expression).  An `INCREMENT`-tagged dictionary without a
`var_name` key would raise `KeyError`. -/
def cppAnalyzeExpressionStatement (expression : Node) (errors : List String) (st : Stack) :
    Except String (List String × Stack) :=
  match expression with
  | .increment v _ =>
      match cppLookupVariable st v with
      | none => .ok (errors ++ ["Error: Variable '" ++ v ++ "' not declared for increment."], st)
      | some vt =>
          if vt ∉ [VInfo.vstr "int", VInfo.vstr "float"] then
            .ok (errors ++ ["Warning: Increment operation on non-numeric type '" ++
                  vinfoRepr vt ++ "' for variable '" ++ v ++ "'."], st)
          else .ok (errors, st)
  | .unsupported t =>
      if t = "INCREMENT" then .error "KeyError: 'var_name'"
      else do
        let (_, errors) ← cppEvaluateExpressionType st (.unsupported t) "expression statement" errors
        .ok (errors, st)
  | e => do
      let (_, errors) ← cppEvaluateExpressionType st e "expression statement" errors
      .ok (errors, st)

/-! ## semantic_analyzer_cpp.py — recursive statement analysis

Every function matches on an explicit fuel parameter and passes the
decremented fuel to each call; with enough fuel this is exactly the
source's unbounded recursion. -/

mutual

/-- `SemanticAnalyzer.analyze_statement`: dispatch on the node's `type` field.
A tag in the handler table whose node lacks the fields the handler needs
behaves as the handler does on a bare dictionary (each handler checks its
required fields first, except the `INCREMENT` handler which indexes
`var_name` directly and raises `KeyError`). -/
def cppAnalyzeStatement : Nat → Node → List String → Stack →
    Except String (List String × Stack)
  | 0, _, _, _ => .error "out of fuel"
  | fuel+1, node, errors, st =>
    match node with
    | .variableDeclaration t n i => cppAnalyzeVariableDeclaration t n i errors st
    | .assignment n e => cppCheckAssignment n e errors st
    | .functionDefinition rt fn body => cppAnalyzeFunction fuel rt fn body errors st
    | .block stmts => cppAnalyzeBlockStmts fuel stmts errors st
    | .ifStatement c tb fb => cppAnalyzeIfStatement fuel c tb fb errors st
    | .whileLoopC c body => cppAnalyzeWhileLoop fuel c (some body) errors st
    | .whileLoopPy c _ =>
        -- the body is a Python list; `analyze_statement(body)` then evaluates
        -- `statement['type']` on a list and raises
        cppAnalyzeWhileLoop fuel c none errors st
    | .returnStatement e => do
        let (expressionType, errors) ← cppEvaluateExpressionType st e "return statement" errors
        match expressionType with
        | none => .ok (errors ++ ["Error: Invalid expression in return statement."], st)
        | some _ => .ok (errors, st)
    | .ioStatement op exprs => cppAnalyzeIoStatement op exprs errors st
    | .ioStatementPy _ _ =>
        -- the Python-parser shape has `io_operator` but no `expressions` key
        .ok (errors ++ ["I/O statement must have an 'expressions' field."], st)
    | .increment v _ => .ok (cppAnalyzeIncrement v errors st, st)
    | .forLoopC init cond inc body => cppAnalyzeForLoop fuel init cond inc body errors st
    | .forLoopPyLimit _ _ _ =>
        .ok (errors ++ ["For loop must have 'init', 'condition', 'increment', and 'body' fields."], st)
    | .forLoopPyStartStop _ _ _ _ =>
        .ok (errors ++ ["For loop must have 'init', 'condition', 'increment', and 'body' fields."], st)
    | .forLoopPyFull _ _ _ _ _ =>
        .ok (errors ++ ["For loop must have 'init', 'condition', 'increment', and 'body' fields."], st)
    | .expressionStatement e => cppAnalyzeExpressionStatement e errors st
    | .unsupported t =>
        if t = "VARIABLE_DECLARATION" then
          .ok (errors ++ ["Variable declaration must have 'var_name' and 'var_type' fields."], st)
        else if t = "ASSIGNMENT" then
          .ok (errors ++ ["Assignment statement must have 'var_name' and 'expression' fields."], st)
        else if t = "FUNCTION_DEFINITION" then
          .ok (errors ++ ["Function definition must include 'func_name' and 'body' fields."], st)
        else if t = "BLOCK" then
          .ok (errors ++ ["Invalid block structure. Expected a dictionary with 'statements' key."], st)
        else if t = "IF_STATEMENT" then
          .ok (errors ++ ["If statement must have 'condition' and 'true_branch' fields."], st)
        else if t = "WHILE_LOOP" then
          .ok (errors ++ ["While loop must have 'condition' and 'body' fields."], st)
        else if t = "RETURN_STATEMENT" then
          .ok (errors ++ ["Return statement must have an 'expression' field."], st)
        else if t = "CLASS_DEFINITION" then
          .ok (errors ++ ["Class definition must have 'class_name' and 'body' fields."], st)
        else if t = "IO_STATEMENT" then
          .ok (errors ++ ["I/O statement must have an 'io_operator' field."], st)
        else if t = "INCREMENT" then .error "KeyError: 'var_name'"
        else if t = "FOR_LOOP" then
          .ok (errors ++ ["For loop must have 'init', 'condition', 'increment', and 'body' fields."], st)
        else if t = "EXPRESSION_STATEMENT" then
          .ok (errors ++ ["Expression statement must have an 'expression' field."], st)
        else
          .ok (errors ++ ["Warning: Unsupported statement type '" ++ t ++ "'."], st)
    | n => .ok (errors ++ ["Warning: Unsupported statement type '" ++ n.tag ++ "'."], st)

/-- Sequential analysis of a statement list (the loops in `analyze` and
`analyze_block`). -/
def cppAnalyzeStatements : Nat → List Node → List String → Stack →
    Except String (List String × Stack)
  | 0, _, _, _ => .error "out of fuel"
  | _+1, [], errors, st => .ok (errors, st)
  | fuel+1, stmt :: rest, errors, st => do
      let (errors, st) ← cppAnalyzeStatement fuel stmt errors st
      cppAnalyzeStatements fuel rest errors st

/-- `SemanticAnalyzer.analyze_block` on a well-formed block dictionary:
enter a scope, analyze each statement, leave the scope. -/
def cppAnalyzeBlockStmts : Nat → List Node → List String → Stack →
    Except String (List String × Stack)
  | 0, _, _, _ => .error "out of fuel"
  | fuel+1, stmts, errors, st => do
      let (errors, st) ← cppAnalyzeStatements fuel stmts errors ([] :: st)
      .ok (errors, st.tail)

/-- `SemanticAnalyzer.analyze_function`.  The parser never emits a `params`
key, so `function.get('params', [])` is empty and the parameter loops are
vacuous; the body is always a statement list, analyzed through
`analyze_block` inside an extra scope. -/
def cppAnalyzeFunction : Nat → String → String → List Node → List String → Stack →
    Except String (List String × Stack)
  | 0, _, _, _, _, _ => .error "out of fuel"
  | fuel+1, returnType, funcName, body, errors, st => do
      let globalScope := (st.getLast? ).getD []
      let (errors, st) :=
        if scopeHasKey globalScope funcName then
          (errors ++ ["Error: Function '" ++ funcName ++ "' already declared."], st)
        else
          (errors, stackUpdateLast st (fun sc => sc ++ [(funcName, .vfunc [] returnType)]))
      let (errors, st) ← cppAnalyzeBlockStmts fuel body errors ([] :: st)
      .ok (errors, st.tail)

/-- `SemanticAnalyzer.analyze_if_statement`. -/
def cppAnalyzeIfStatement : Nat → Node → Node → Option Node → List String → Stack →
    Except String (List String × Stack)
  | 0, _, _, _, _, _ => .error "out of fuel"
  | fuel+1, condition, trueBranch, falseBranch, errors, st => do
      let (conditionType, errors) ←
        cppEvaluateExpressionType st condition "if statement condition" errors
      let errors :=
        if conditionType ≠ some (.vstr "bool") then
          errors ++ ["Error: Condition in if statement must be of type 'bool', got " ++
                     showTypeOpt conditionType ++ "."]
        else errors
      let (errors, st) ← cppAnalyzeStatement fuel trueBranch errors st
      match falseBranch with
      | some fb => cppAnalyzeStatement fuel fb errors st
      | none => .ok (errors, st)

/-- `SemanticAnalyzer.analyze_while_loop`.  `body = none` encodes the
Python-parser shape whose body is a list: `analyze_statement` then indexes
the list with `'type'` and raises `TypeError`. -/
def cppAnalyzeWhileLoop : Nat → Node → Option Node → List String → Stack →
    Except String (List String × Stack)
  | 0, _, _, _, _ => .error "out of fuel"
  | fuel+1, condition, body, errors, st => do
      let (conditionType, errors) ←
        cppEvaluateExpressionType st condition "while loop condition" errors
      let errors :=
        if conditionType ≠ some (.vstr "bool") then
          errors ++ ["Error: Condition in while loop must be of type 'bool', got " ++
                     showTypeOpt conditionType ++ "."]
        else errors
      match body with
      | some b => cppAnalyzeStatement fuel b errors st
      | none => .error "TypeError: list indices must be integers or slices, not str"

/-- `SemanticAnalyzer.analyze_for_loop` (the C++-parser shape carries all four
fields; `increment` may be `None`, and `'var_name' in None` raises). -/
def cppAnalyzeForLoop : Nat → Node → Node → Option Node → Node → List String → Stack →
    Except String (List String × Stack)
  | 0, _, _, _, _, _, _ => .error "out of fuel"
  | fuel+1, init, condition, incrementNode, body, errors, st => do
      let (errors, st) ←
        match init with
        | .variableDeclaration t n i => cppAnalyzeVariableDeclaration t n i errors st
        | .assignment n e => cppCheckAssignment n e errors st
        | .unsupported "VARIABLE_DECLARATION" =>
            .ok (errors ++ ["Variable declaration must have 'var_name' and 'var_type' fields."], st)
        | .unsupported "ASSIGNMENT" =>
            .ok (errors ++ ["Assignment statement must have 'var_name' and 'expression' fields."], st)
        | other =>
            .ok (errors ++ ["Unsupported initialization type '" ++ other.tag ++ "' in for loop."], st)
      let (conditionType, errors) ←
        cppEvaluateExpressionType st condition "for loop condition" errors
      let errors :=
        if conditionType.isSome ∧ conditionType ≠ some (.vstr "bool") then
          errors ++ ["Error: Condition in for loop should evaluate to 'bool', got " ++
                     showTypeOpt conditionType ++ "."]
        else errors
      let errors ←
        match incrementNode with
        | none => .error "TypeError: argument of type 'NoneType' is not iterable"
        | some inc =>
            match nodeVarNameField inc with
            | some v =>
                match cppLookupVariable st v with
                | none =>
                    .ok (errors ++ ["Error: Variable '" ++ v ++ "' for increment not declared."])
                | some vt =>
                    if vt ∉ [VInfo.vstr "int", VInfo.vstr "float"] then
                      .ok (errors ++ ["Warning: Increment operation on non-numeric type '" ++
                            vinfoRepr vt ++ "' for variable '" ++ v ++ "'."])
                    else .ok errors
            | none =>
                match nodeExpressionField inc with
                | some e => do
                    let (_, errors) ← cppEvaluateExpressionType st e "for loop increment" errors
                    .ok errors
                | none => .ok errors
      cppAnalyzeStatement fuel body errors st

/-- `SemanticAnalyzer.analyze_io_statement` (both fields are present on the
constructor; each expression is type-checked in turn). -/
def cppAnalyzeIoStatement : String → List Node → List String → Stack →
    Except String (List String × Stack)
  | _, [], errors, st => .ok (errors, st)
  | op, e :: rest, errors, st => do
      let (exprType, errors) ←
        cppEvaluateExpressionType st e ("I/O statement with operator '" ++ op ++ "'") errors
      let errors :=
        match exprType with
        | none => errors ++ ["Error: Invalid expression in I/O statement."]
        | some _ => errors
      cppAnalyzeIoStatement op rest errors st

end

/-- `SemanticAnalyzer.analyze`: fresh analyzer state is a single empty global
frame; a non-`PROGRAM` root short-circuits. -/
def cppAnalyze (fuel : Nat) (ast : Node) : Except String (List String × Stack) :=
  match ast with
  | .program statements => cppAnalyzeStatements fuel statements [] [[]]
  | _ => .ok (["Expected AST root to be of type 'PROGRAM'"], [[]])

/-- The diagnostic list of `SemanticAnalyzer.analyze`. -/
def cppAnalyzeErrors (fuel : Nat) (ast : Node) : Except String (List String) :=
  (cppAnalyze fuel ast).map (·.1)

/-! ## lexercpp.py — tokenizer

Each regex of `TOKEN_TYPES` is realised as a matcher anchored at the current
offset (the semantics of `pattern.match(contents, position)`), taking the
previous character so that `\b` can be decided.  Patterns are tried in
declaration order, first match wins. -/

/-- Python regex `\w` (ASCII range, which covers all repository inputs). -/
def isWordChar (c : Char) : Bool := c.isAlphanum || c = '_'

/-- `\b` between two adjacent positions; `none` is a string edge. -/
def boundaryBetween (a b : Option Char) : Bool :=
  ((a.map isWordChar).getD false) != ((b.map isWordChar).getD false)

/-- Alternation body of the C++ `KEYWORD` pattern, in declaration order. -/
def cppKeywordAlternatives : List String :=
  ["int", "float", "double", "bool", "char", "string", "void", "if", "else",
   "while", "for", "return", "using", "namespace", "include"]

/-- `\b(int|float|...)\b`: the leading `\b` (before a word character) needs a
non-word predecessor; each alternative is tried in order and must be followed
by a word boundary. -/
def cppMatchKeyword (prev : Option Char) (rest : List Char) : Option (List Char) :=
  if (prev.map isWordChar).getD false then none
  else
    cppKeywordAlternatives.findSome? fun kw =>
      let l := kw.data
      if l.isPrefixOf rest && boundaryBetween (some 't') ((rest.drop l.length).head?) then
        -- every alternative ends in a word character, so the trailing `\b`
        -- only constrains the next character (the `'t'` stands for any
        -- word character)
        some l
      else none

/-- `\b[a-zA-Z_][a-zA-Z0-9_]*\b`: greedy run of word characters starting with
a letter or underscore; the trailing boundary always holds after a maximal
run. -/
def cppMatchIdentifier (prev : Option Char) (rest : List Char) : Option (List Char) :=
  if (prev.map isWordChar).getD false then none
  else
    match rest with
    | c :: _ => if c.isAlpha || c = '_' then some (rest.takeWhile isWordChar) else none
    | [] => none

/-- `\b\d+(\.\d*)?\b` with the regex engine's backtracking: the greedy
fractional part is tried first, then an empty fractional part (keeping the
dot), then the optional group is dropped entirely. -/
def cppMatchNumber (prev : Option Char) (rest : List Char) : Option (List Char) :=
  if (prev.map isWordChar).getD false then none
  else
    let ds := rest.takeWhile (·.isDigit)
    if ds.isEmpty then none
    else
      let rest1 := rest.drop ds.length
      match rest1 with
      | '.' :: tl =>
          let fs := tl.takeWhile (·.isDigit)
          let afterFull := tl.drop fs.length
          if fs ≠ [] then
            if boundaryBetween (some '0') afterFull.head? then some (ds ++ '.' :: fs)
            else some (ds ++ ['.'])
              -- backtracking `\d*` to zero digits always succeeds here: the
              -- boundary sits between '.' and a digit
          else
            if boundaryBetween (some '.') tl.head? then some (ds ++ ['.'])
            else some ds
              -- dropping the optional group: the boundary between a digit
              -- and '.' always holds
      | _ =>
          if boundaryBetween (some '0') rest1.head? then some ds else none

/-- `"[^"\\]*(?:\\.[^"\\]*)*"` body scan: anything but quote and backslash,
or a backslash escaping any character except a newline (`.` does not match
newline); returns the matched characters including the closing quote. -/
def cppStringScan : List Char → Option (List Char)
  | [] => none
  | '"' :: _ => some ['"']
  | '\\' :: c :: tl =>
      if c = '\n' then none
      else (cppStringScan tl).map (fun r => '\\' :: c :: r)
  | ['\\'] => none
  | c :: tl => (cppStringScan tl).map (fun r => c :: r)

/-- The C++ `STRING` pattern. -/
def cppMatchString (rest : List Char) : Option (List Char) :=
  match rest with
  | '"' :: tl => (cppStringScan tl).map (fun r => '"' :: r)
  | _ => none

/-- First alternative of a list of literal lexemes that is a prefix of the
input. -/
def matchFirstLiteral (lits : List String) (rest : List Char) : Option (List Char) :=
  lits.findSome? fun lit =>
    if lit.data.isPrefixOf rest then some lit.data else none

/-- A single character drawn from a class. -/
def matchCharClass (cs : List Char) (rest : List Char) : Option (List Char) :=
  match rest with
  | c :: _ => if c ∈ cs then some [c] else none
  | [] => none

/-- `\s+`. -/
def matchWhitespaceRun (rest : List Char) : Option (List Char) :=
  let ws := rest.takeWhile isPySpace
  if ws.isEmpty then none else some ws

/-- The C++ `TOKEN_TYPES` list, in declaration order. -/
def cppTokenPatterns : List (String × (Option Char → List Char → Option (List Char))) :=
  [("KEYWORD", cppMatchKeyword),
   ("IDENTIFIER", cppMatchIdentifier),
   ("NUMBER", cppMatchNumber),
   ("INSERTION_OPERATOR", fun _ => matchFirstLiteral [">>", "<<"]),
   ("RELATIONAL_OPERATOR", fun _ => matchFirstLiteral ["<=", ">=", "==", "!=", "<", ">"]),
   ("COMPOUND_ASSIGNMENT", fun _ => matchFirstLiteral ["+=", "-=", "*=", "/="]),
   ("ARITHMETIC_OPERATOR", fun _ => matchFirstLiteral ["++", "--", "+", "-", "*", "/", "%", "="]),
   ("STRING", fun _ => cppMatchString),
   ("SEMICOLON", fun _ => matchFirstLiteral [";"]),
   ("COMMA", fun _ => matchFirstLiteral [","]),
   ("LBRACE", fun _ => matchFirstLiteral ["\x7b"]),
   ("RBRACE", fun _ => matchFirstLiteral ["\x7d"]),
   ("LPAREN", fun _ => matchFirstLiteral ["("]),
   ("RPAREN", fun _ => matchFirstLiteral [")"]),
   ("SPECIAL_CHARACTER", fun _ => matchCharClass ['@', '_', '!', '#', '$', '^', '&', '?', '~']),
   ("APOSTROPHE", fun _ => matchCharClass ['\'']),
   ("WHITESPACE", fun _ => matchWhitespaceRun)]

/-- One iteration of the `Lexer.tokenize` matching loop: the first declared
pattern that matches at `pos`, together with the new offset. -/
def cppLexStep (src : List Char) (pos : Nat) : Option (String × String × Nat) :=
  let prev := if pos = 0 then none else src.get? (pos - 1)
  let rest := src.drop pos
  cppTokenPatterns.findSome? fun p =>
    (p.2 prev rest).map fun l => (p.1, (⟨l⟩ : String), pos + l.length)

/-- The keyword set extracted in `Lexer.__init__` by
`re.findall(r'\w+', keyword_pattern)`: note that the `\b` escapes contribute
a spurious `"b"`. -/
def cppKeywords : List String :=
  ["b", "int", "float", "double", "bool", "char", "string", "void", "if", "else",
   "while", "for", "return", "using", "namespace", "include", "b"]

/-- The `Lexer.tokenize` loop.  A matched identifier equal to a keyword is
re-tagged, whitespace is discarded, and a position where nothing matches
raises `ValueError` with the offset and a ten-character snippet. -/
def cppTokenizeAux : Nat → List Char → Nat → List Token → Except String (List Token)
  | 0, _, _, _ => .error "out of fuel"
  | fuel+1, src, pos, tokens =>
    if pos < src.length then
      match cppLexStep src pos with
      | none =>
          .error ("Unable to match contents at position " ++ toString pos ++ ": '" ++
                  (⟨(src.drop pos).take 10⟩ : String) ++ "...'")
      | some (name, value, pos') =>
          let tokens :=
            if name = "IDENTIFIER" ∧ value ∈ cppKeywords then tokens ++ [⟨"KEYWORD", value⟩]
            else if name ≠ "WHITESPACE" then tokens ++ [⟨name, value⟩]
            else tokens
          cppTokenizeAux fuel src pos' tokens
    else .ok tokens

/-- `Lexer.tokenize`. -/
def cppTokenize (fuel : Nat) (contents : String) : Except String (List Token) :=
  cppTokenizeAux fuel contents.data 0 []

/-! ## parsercpp.py — recursive-descent parser

Each function takes the (immutable) token list plus the current position and
returns the parsed node and the new position; `match` failures and the
parser's `SyntaxError`s become `Except.error`.  Indexing `None` (e.g.
`current_token()[0]` at end of input) raises `TypeError` in Python and is
modelled the same way. -/

/-- `Parser.current_token`. -/
def tokAt (tokens : List Token) (pos : Nat) : Option Token := tokens.get? pos

/-- Python `repr` of a token tuple, as interpolated into parser messages. -/
def pyTokenRepr : Option Token → String
  | none => "None"
  | some t => "('" ++ t.type ++ "', '" ++ t.value ++ "')"

/-- `Parser.match`. -/
def cppMatchTok (tokens : List Token) (pos : Nat) (expected : String) :
    Except String (Token × Nat) :=
  match tokAt tokens pos with
  | some t =>
      if t.type = expected then .ok (t, pos + 1)
      else .error ("Expected " ++ expected ++ " but got " ++ pyTokenRepr (some t))
  | none => .error ("Expected " ++ expected ++ " but got None")

/-- `Parser.is_function_definition`: `type-keyword identifier (` lookahead. -/
def cppIsFunctionDefinition (tokens : List Token) (pos : Nat) : Bool :=
  match tokAt tokens pos with
  | some t =>
      t.type == "KEYWORD" && t.value ∈ ["int", "float", "void"] &&
      (match tokAt tokens (pos+1) with
       | some nt =>
           nt.type == "IDENTIFIER" &&
           (match tokAt tokens (pos+2) with
            | some nnt => nnt.type == "LPAREN"
            | none => false)
       | none => false)
  | none => false

mutual

/-- `StatementParser.parse_statement`. -/
def cppParseStatement : Nat → List Token → Nat → Except String (Node × Nat)
  | 0, _, _ => .error "out of fuel"
  | fuel+1, tokens, pos =>
    match tokAt tokens pos with
    | none => .error "Unexpected end of input while parsing statement"
    | some tok =>
      if tok.type = "KEYWORD" then
        if tok.value = "if" then cppParseIfStatement fuel tokens pos
        else if tok.value = "while" then cppParseWhileLoop fuel tokens pos
        else if tok.value = "for" then cppParseForLoop fuel tokens pos
        else if tok.value = "return" then cppParseReturnStatement fuel tokens pos
        else if tok.value ∈ ["int", "float", "double", "bool", "char", "string", "void"] then
          match tokAt tokens (pos+1) with
          | some nt =>
              if nt.type = "IDENTIFIER" then
                match tokAt tokens (pos+2) with
                | some nnt =>
                    if nnt.type = "LPAREN" then cppParseFunctionDefinition fuel tokens pos
                    else cppParseVariableDeclaration fuel tokens pos
                | none => cppParseVariableDeclaration fuel tokens pos
              else .error ("Expected identifier after type '" ++ tok.value ++ "'")
          | none => .error ("Expected identifier after type '" ++ tok.value ++ "'")
        else .error ("Unsupported keyword: " ++ tok.value)
      else if tok.type = "IDENTIFIER" then
        let nt := tokAt tokens (pos+1)
        if (nt.map (fun t => t.type == "LPAREN")).getD false then
          cppParseFunctionCall fuel tokens pos
        else if (nt.map (fun t =>
            t.type == "ARITHMETIC_OPERATOR" && (t.value == "++" || t.value == "--"))).getD false then
          cppParseExpressionStatement fuel tokens pos
        else if (nt.map (fun t =>
            (t.type == "ARITHMETIC_OPERATOR" || t.type == "COMPOUND_ASSIGNMENT") &&
            t.value != "++" && t.value != "--")).getD false then
          cppParseAssignment fuel tokens pos
        else if tok.value = "cout" ∨ tok.value = "cin" then
          cppParseIoStatement fuel tokens pos
        else cppParseExpressionStatement fuel tokens pos
      else if tok.type = "NUMBER" then cppParseExpressionStatement fuel tokens pos
      else if tok.type = "LBRACE" then cppParseBlock fuel tokens pos
      else if tok.type = "SEMICOLON" then
        (cppMatchTok tokens pos "SEMICOLON").map fun (_, p) => (Node.emptyStatement, p)
      else .error ("Unexpected token: " ++ tok.type ++ " " ++ tok.value)
  termination_by structural a1 _ _ => a1

/-- `StatementParser.parse_function_definition` (no parameters supported). -/
def cppParseFunctionDefinition : Nat → List Token → Nat → Except String (Node × Nat)
  | 0, _, _ => .error "out of fuel"
  | fuel+1, tokens, pos => do
      let (rt, pos) ← cppMatchTok tokens pos "KEYWORD"
      let (fn, pos) ← cppMatchTok tokens pos "IDENTIFIER"
      let (_, pos) ← cppMatchTok tokens pos "LPAREN"
      let (_, pos) ← cppMatchTok tokens pos "RPAREN"
      let (body, pos) ← cppParseBlock fuel tokens pos
      match body with
      | .block stmts => .ok (.functionDefinition rt.value fn.value stmts, pos)
      | _ => .error "KeyError: 'statements'"
  termination_by structural a1 _ _ => a1

/-- `StatementParser.parse_assignment`: `=` keeps the expression as parsed,
a compound token desugars into a `BINARY_EXPRESSION` whose operator is the
first character of the compound lexeme and whose left side repeats the
identifier. -/
def cppParseAssignment : Nat → List Token → Nat → Except String (Node × Nat)
  | 0, _, _ => .error "out of fuel"
  | fuel+1, tokens, pos => do
      let (varTok, pos) ← cppMatchTok tokens pos "IDENTIFIER"
      match tokAt tokens pos with
      | some nt =>
          if nt.type = "ARITHMETIC_OPERATOR" ∧ nt.value = "=" then do
            let (_, pos) ← cppMatchTok tokens pos "ARITHMETIC_OPERATOR"
            let (expression, pos) ← cppParseExpression fuel tokens pos
            let (_, pos) ← cppMatchTok tokens pos "SEMICOLON"
            .ok (.assignment varTok.value expression, pos)
          else if nt.type = "COMPOUND_ASSIGNMENT" then do
            let (opTok, pos) ← cppMatchTok tokens pos "COMPOUND_ASSIGNMENT"
            let (rightExpr, pos) ← cppParseExpression fuel tokens pos
            let (_, pos) ← cppMatchTok tokens pos "SEMICOLON"
            .ok (.assignment varTok.value
                  (.binaryExpression (opTok.value.take 1) (.identifier varTok.value) rightExpr), pos)
          else
            .error ("Expected '=' or compound assignment operator after identifier '" ++
                    varTok.value ++ "' in assignment")
      | none =>
          .error ("Expected '=' or compound assignment operator after identifier '" ++
                  varTok.value ++ "' in assignment")

/-- `StatementParser.parse_expression_statement`. -/
def cppParseExpressionStatement : Nat → List Token → Nat → Except String (Node × Nat)
  | 0, _, _ => .error "out of fuel"
  | fuel+1, tokens, pos => do
      let (expression, pos) ← cppParseExpression fuel tokens pos
      let (_, pos) ← cppMatchTok tokens pos "SEMICOLON"
      .ok (.expressionStatement expression, pos)

/-- `StatementParser.parse_while_loop`. -/
def cppParseWhileLoop : Nat → List Token → Nat → Except String (Node × Nat)
  | 0, _, _ => .error "out of fuel"
  | fuel+1, tokens, pos => do
      let (_, pos) ← cppMatchTok tokens pos "KEYWORD"
      let (_, pos) ← cppMatchTok tokens pos "LPAREN"
      let (condition, pos) ← cppParseExpression fuel tokens pos
      let (_, pos) ← cppMatchTok tokens pos "RPAREN"
      let (body, pos) ← cppParseStatement fuel tokens pos
      .ok (.whileLoopC condition body, pos)
  termination_by structural a1 _ _ => a1

/-- `StatementParser.parse_for_loop`.  Lookahead subscripts
(`current_token()[0]`) raise `TypeError` at end of input, as in Python. -/
def cppParseForLoop : Nat → List Token → Nat → Except String (Node × Nat)
  | 0, _, _ => .error "out of fuel"
  | fuel+1, tokens, pos => do
      let (_, pos) ← cppMatchTok tokens pos "KEYWORD"
      let (_, pos) ← cppMatchTok tokens pos "LPAREN"
      let (init, pos) ←
        match tokAt tokens pos with
        | none => .error "TypeError: 'NoneType' object is not subscriptable"
        | some t =>
            if t.type = "KEYWORD" then do
              let (initType, pos) ← cppMatchTok tokens pos "KEYWORD"
              let (varTok, pos) ← cppMatchTok tokens pos "IDENTIFIER"
              let (_, pos) ← cppMatchTok tokens pos "ARITHMETIC_OPERATOR"
              let (startValue, pos) ← cppParseExpression fuel tokens pos
              .ok ((Node.variableDeclaration initType.value varTok.value (some startValue), pos))
            else if t.type = "IDENTIFIER" then do
              let (varTok, pos) ← cppMatchTok tokens pos "IDENTIFIER"
              let (_, pos) ← cppMatchTok tokens pos "ARITHMETIC_OPERATOR"
              let (startValue, pos) ← cppParseExpression fuel tokens pos
              .ok ((Node.assignment varTok.value startValue, pos))
            else .error "For loop initialization must start with a type or identifier"
      let (_, pos) ← cppMatchTok tokens pos "SEMICOLON"
      let (condition, pos) ←
        match tokAt tokens pos with
        | none => .error "TypeError: 'NoneType' object is not subscriptable"
        | some t =>
            if t.type ≠ "SEMICOLON" then cppParseExpression fuel tokens pos
            else .ok ((Node.booleanLiteral "true", pos))
      let (_, pos) ← cppMatchTok tokens pos "SEMICOLON"
      let (incrementNode, pos) ←
        match tokAt tokens pos with
        | none => .error "TypeError: 'NoneType' object is not subscriptable"
        | some t =>
            if t.type ≠ "RPAREN" then
              if t.type = "IDENTIFIER" then do
                let (incVar, pos) ← cppMatchTok tokens pos "IDENTIFIER"
                match tokAt tokens pos with
                | none => .error "TypeError: 'NoneType' object is not subscriptable"
                | some nt =>
                    if nt.type = "ARITHMETIC_OPERATOR" ∧ (nt.value = "++" ∨ nt.value = "--") then do
                      let (opTok, pos) ← cppMatchTok tokens pos "ARITHMETIC_OPERATOR"
                      .ok ((some (Node.increment incVar.value opTok.value), pos))
                    else if nt.type = "ARITHMETIC_OPERATOR" ∧ nt.value = "=" then do
                      let (_, pos) ← cppMatchTok tokens pos "ARITHMETIC_OPERATOR"
                      let (expression, pos) ← cppParseExpression fuel tokens pos
                      .ok ((some (Node.assignment incVar.value expression), pos))
                    else if nt.type = "COMPOUND_ASSIGNMENT" then do
                      let (opTok, pos) ← cppMatchTok tokens pos "COMPOUND_ASSIGNMENT"
                      let (expression, pos) ← cppParseExpression fuel tokens pos
                      .ok ((some (Node.assignment incVar.value
                             (.binaryExpression (opTok.value.take 1)
                               (.identifier incVar.value) expression)), pos))
                    else
                      .error ("Unexpected token after increment variable: " ++ pyTokenRepr (some nt))
              else .ok ((none, pos))
            else .ok ((none, pos))
      let (_, pos) ← cppMatchTok tokens pos "RPAREN"
      let (body, pos) ← cppParseStatement fuel tokens pos
      .ok (.forLoopC init condition incrementNode body, pos)
  termination_by structural a1 _ _ => a1

/-- `StatementParser.parse_if_statement`: `else if` recurses, building the
right-leaning chain through the false branch. -/
def cppParseIfStatement : Nat → List Token → Nat → Except String (Node × Nat)
  | 0, _, _ => .error "out of fuel"
  | fuel+1, tokens, pos => do
      let (_, pos) ← cppMatchTok tokens pos "KEYWORD"
      let (_, pos) ← cppMatchTok tokens pos "LPAREN"
      let (condition, pos) ← cppParseExpression fuel tokens pos
      let (_, pos) ← cppMatchTok tokens pos "RPAREN"
      let (trueBranch, pos) ← cppParseStatement fuel tokens pos
      match tokAt tokens pos with
      | some t =>
          if t.value = "else" then do
            let (_, pos) ← cppMatchTok tokens pos "KEYWORD"
            let (falseBranch, pos) ←
              match tokAt tokens pos with
              | some nt =>
                  if nt.type = "KEYWORD" ∧ nt.value = "if" then cppParseIfStatement fuel tokens pos
                  else cppParseStatement fuel tokens pos
              | none => cppParseStatement fuel tokens pos
            .ok (.ifStatement condition trueBranch (some falseBranch), pos)
          else .ok (.ifStatement condition trueBranch none, pos)
      | none => .ok (.ifStatement condition trueBranch none, pos)
  termination_by structural a1 _ _ => a1

/-- Loop body of `StatementParser.parse_block`. -/
def cppParseBlockStmts : Nat → List Token → Nat → List Node → Except String (List Node × Nat)
  | 0, _, _, _ => .error "out of fuel"
  | fuel+1, tokens, pos, acc =>
      match tokAt tokens pos with
      | some t =>
          if t.type ≠ "RBRACE" then do
            let (stmt, pos') ← cppParseStatement fuel tokens pos
            cppParseBlockStmts fuel tokens pos' (acc ++ [stmt])
          else .ok (acc, pos)
      | none => .ok (acc, pos)
  termination_by structural a1 _ _ _ => a1

/-- `StatementParser.parse_block`. -/
def cppParseBlock : Nat → List Token → Nat → Except String (Node × Nat)
  | 0, _, _ => .error "out of fuel"
  | fuel+1, tokens, pos => do
      let (_, pos) ← cppMatchTok tokens pos "LBRACE"
      let (stmts, pos) ← cppParseBlockStmts fuel tokens pos []
      let (_, pos) ← cppMatchTok tokens pos "RBRACE"
      .ok (.block stmts, pos)
  termination_by structural a1 _ _ => a1

/-- Loop body of `StatementParser.parse_io_statement`. -/
def cppParseIoExprs : Nat → List Token → Nat → String → List Node →
    Except String (List Node × Nat)
  | 0, _, _, _, _ => .error "out of fuel"
  | fuel+1, tokens, pos, ioOperator, acc =>
      match tokAt tokens pos with
      | some t =>
          if t.type = "INSERTION_OPERATOR" then do
            let (_, pos) ← cppMatchTok tokens pos "INSERTION_OPERATOR"
            match tokAt tokens pos with
            | none => .error "TypeError: 'NoneType' object is not subscriptable"
            | some nt =>
                if nt.type ∈ ["STRING", "IDENTIFIER", "NUMBER", "LPAREN"] then do
                  let (expression, pos) ← cppParseExpression fuel tokens pos
                  cppParseIoExprs fuel tokens pos ioOperator (acc ++ [expression])
                else .error ("Expected expression after '" ++ ioOperator ++ " <<'")
          else .ok (acc, pos)
      | none => .ok (acc, pos)
  termination_by structural a1 _ _ _ _ => a1

/-- `StatementParser.parse_io_statement`. -/
def cppParseIoStatement : Nat → List Token → Nat → Except String (Node × Nat)
  | 0, _, _ => .error "out of fuel"
  | fuel+1, tokens, pos => do
      let (ioTok, pos) ← cppMatchTok tokens pos "IDENTIFIER"
      let (expressions, pos) ← cppParseIoExprs fuel tokens pos ioTok.value []
      let (_, pos) ← cppMatchTok tokens pos "SEMICOLON"
      .ok (.ioStatement ioTok.value expressions, pos)

/-- `StatementParser.parse_return_statement`. -/
def cppParseReturnStatement : Nat → List Token → Nat → Except String (Node × Nat)
  | 0, _, _ => .error "out of fuel"
  | fuel+1, tokens, pos => do
      let (_, pos) ← cppMatchTok tokens pos "KEYWORD"
      let (expression, pos) ← cppParseExpression fuel tokens pos
      let (_, pos) ← cppMatchTok tokens pos "SEMICOLON"
      .ok (.returnStatement expression, pos)

/-- `StatementParser.parse_variable_declaration`. -/
def cppParseVariableDeclaration : Nat → List Token → Nat → Except String (Node × Nat)
  | 0, _, _ => .error "out of fuel"
  | fuel+1, tokens, pos =>
      match tokAt tokens pos with
      | none => .error "TypeError: 'NoneType' object is not subscriptable"
      | some t =>
          if t.value ∈ ["int", "float", "double", "bool", "char", "string", "void"] then do
            let (vt, pos) ← cppMatchTok tokens pos "KEYWORD"
            let (vn, pos) ← cppMatchTok tokens pos "IDENTIFIER"
            match tokAt tokens pos with
            | some nt =>
                if nt.type = "ARITHMETIC_OPERATOR" ∧ nt.value = "=" then do
                  let (_, pos) ← cppMatchTok tokens pos "ARITHMETIC_OPERATOR"
                  let (initializer, pos) ← cppParseExpression fuel tokens pos
                  let (_, pos) ← cppMatchTok tokens pos "SEMICOLON"
                  .ok (.variableDeclaration vt.value vn.value (some initializer), pos)
                else do
                  let (_, pos) ← cppMatchTok tokens pos "SEMICOLON"
                  .ok (.variableDeclaration vt.value vn.value none, pos)
            | none => do
                let (_, pos) ← cppMatchTok tokens pos "SEMICOLON"
                .ok (.variableDeclaration vt.value vn.value none, pos)
          else .error ("Unsupported type: " ++ t.value)

/-- Argument loop of `StatementParser.parse_function_call`. -/
def cppParseCallArgs : Nat → List Token → Nat → List Node → Except String (List Node × Nat)
  | 0, _, _, _ => .error "out of fuel"
  | fuel+1, tokens, pos, acc =>
      match tokAt tokens pos with
      | some t =>
          if t.type = "COMMA" then do
            let (_, pos) ← cppMatchTok tokens pos "COMMA"
            let (arg, pos) ← cppParseExpression fuel tokens pos
            cppParseCallArgs fuel tokens pos (acc ++ [arg])
          else .ok (acc, pos)
      | none => .ok (acc, pos)
  termination_by structural a1 _ _ _ => a1

/-- `StatementParser.parse_function_call`. -/
def cppParseFunctionCall : Nat → List Token → Nat → Except String (Node × Nat)
  | 0, _, _ => .error "out of fuel"
  | fuel+1, tokens, pos => do
      let (fn, pos) ← cppMatchTok tokens pos "IDENTIFIER"
      let (_, pos) ← cppMatchTok tokens pos "LPAREN"
      let (args, pos) ←
        match tokAt tokens pos with
        | none => .error "TypeError: 'NoneType' object is not subscriptable"
        | some t =>
            if t.type ≠ "RPAREN" then do
              let (first, pos) ← cppParseExpression fuel tokens pos
              cppParseCallArgs fuel tokens pos [first]
            else .ok (([], pos))
      let (_, pos) ← cppMatchTok tokens pos "RPAREN"
      let (_, pos) ← cppMatchTok tokens pos "SEMICOLON"
      .ok (.functionCall fn.value args, pos)

/-- Binary-chain loop of `ExpressionParser.parse_expression`: flat and
left-associative, no precedence levels. -/
def cppParseExprLoop : Nat → List Token → Nat → Node → Except String (Node × Nat)
  | 0, _, _, _ => .error "out of fuel"
  | fuel+1, tokens, pos, left =>
      match tokAt tokens pos with
      | some t =>
          if t.type ∈ ["ARITHMETIC_OPERATOR", "RELATIONAL_OPERATOR"] then do
            let (opTok, pos) ← cppMatchTok tokens pos t.type
            let (right, pos) ← cppParseTerm fuel tokens pos
            cppParseExprLoop fuel tokens pos (.binaryExpression opTok.value left right)
          else .ok (left, pos)
      | none => .ok (left, pos)
  termination_by structural a1 _ _ _ => a1

/-- `ExpressionParser.parse_expression`. -/
def cppParseExpression : Nat → List Token → Nat → Except String (Node × Nat)
  | 0, _, _ => .error "out of fuel"
  | fuel+1, tokens, pos => do
      let (left, pos) ← cppParseTerm fuel tokens pos
      cppParseExprLoop fuel tokens pos left
  termination_by structural a1 _ _ => a1

/-- `ExpressionParser.parse_term`. -/
def cppParseTerm : Nat → List Token → Nat → Except String (Node × Nat)
  | 0, _, _ => .error "out of fuel"
  | fuel+1, tokens, pos =>
      match tokAt tokens pos with
      | none => .error "TypeError: 'NoneType' object is not subscriptable"
      | some t =>
          if t.type = "NUMBER" then
            (cppMatchTok tokens pos "NUMBER").map fun (tk, p) => (Node.number tk.value, p)
          else if t.type = "IDENTIFIER" then do
            let (tk, pos) ← cppMatchTok tokens pos "IDENTIFIER"
            match tokAt tokens pos with
            | some nt =>
                if nt.type = "ARITHMETIC_OPERATOR" ∧ (nt.value = "++" ∨ nt.value = "--") then do
                  let (opTok, pos) ← cppMatchTok tokens pos "ARITHMETIC_OPERATOR"
                  .ok (.increment tk.value opTok.value, pos)
                else .ok (.identifier tk.value, pos)
            | none => .ok (.identifier tk.value, pos)
          else if t.type = "STRING" then
            (cppMatchTok tokens pos "STRING").map fun (tk, p) => (Node.stringLiteral tk.value, p)
          else if t.type = "LPAREN" then do
            let (_, pos) ← cppMatchTok tokens pos "LPAREN"
            let (expression, pos) ← cppParseExpression fuel tokens pos
            let (_, pos) ← cppMatchTok tokens pos "RPAREN"
            .ok (expression, pos)
          else if t.type ∈ ["SEMICOLON", "LBRACE", "RBRACE"] then
            .error ("Unexpected end of expression: " ++ pyTokenRepr (some t))
          else .error ("Unexpected token in expression: " ++ pyTokenRepr (some t))
  termination_by structural a1 _ _ => a1

end

/-- Loop body of `Parser.parse_program`. -/
def cppParseProgramAux : Nat → List Token → Nat → List Node → Except String (List Node × Nat)
  | 0, _, _, _ => .error "out of fuel"
  | fuel+1, tokens, pos, acc =>
      match tokAt tokens pos with
      | none => .ok (acc, pos)
      | some _ => do
          let (stmt, pos') ←
            if cppIsFunctionDefinition tokens pos then cppParseFunctionDefinition fuel tokens pos
            else cppParseStatement fuel tokens pos
          cppParseProgramAux fuel tokens pos' (acc ++ [stmt])

/-- `Parser.parse_program`. -/
def cppParseProgram (fuel : Nat) (tokens : List Token) : Except String Node :=
  (cppParseProgramAux fuel tokens 0 []).map fun (stmts, _) => .program stmts

/-! ## convertercpp.py — AST → Python text -/

/-- Python `str.endswith`. -/
def pyEndsWith (s suf : String) : Bool := suf.data.reverse.isPrefixOf s.data.reverse

mutual

/-- `Converter.find_parent`'s inner `search(n, target)`: containers are the
`statements` key (programs, blocks), then the `body` key (a list for function
definitions and Python-shaped loops, or a dictionary that is only walked when
it is a block).  Equality is Python dictionary equality. -/
def cppFindParentSearch (target : Node) (n : Node) : Option Node :=
  let viaStatements :=
    match n with
    | .program stmts => cppFindParentLoop target n stmts
    | .block stmts => cppFindParentLoop target n stmts
    | _ => none
  match viaStatements with
  | some r => some r
  | none =>
      match n with
      | .functionDefinition _ _ body => cppFindParentLoop target n body
      | .whileLoopPy _ body => cppFindParentLoop target n body
      | .forLoopPyLimit _ _ body => cppFindParentLoop target n body
      | .forLoopPyStartStop _ _ _ body => cppFindParentLoop target n body
      | .forLoopPyFull _ _ _ _ body => cppFindParentLoop target n body
      | .forLoopC _ _ _ (.block stmts) => cppFindParentLoop target n stmts
      | .whileLoopC _ (.block stmts) => cppFindParentLoop target n stmts
      | _ => none

/-- The `for stmt in ...` loop inside `search`. -/
def cppFindParentLoop (target parent : Node) (stmts : List Node) : Option Node :=
  match stmts with
  | [] => none
  | stmt :: rest =>
      if nodeBEq stmt target then some parent
      else
        match cppFindParentSearch target stmt with
        | some r => some r
        | none => cppFindParentLoop target parent rest

end

/-- `Converter.lookup_variable_type`: scan the enclosing statement list
backwards from `position - 1` for a declaration of the name. -/
def cppLookupVariableType (varName : String) (statements : List Node) (position : Nat) :
    Option String :=
  if statements.isEmpty then none
  else
    ((statements.take position).reverse.find? fun stmt =>
        stmt.tag == "VARIABLE_DECLARATION" && nodeVarNameField stmt == some varName).bind
      fun stmt =>
        match stmt with
        | .variableDeclaration vt _ _ => some vt
        | _ => none

/-- The dictionary-key accesses `Converter.generate_node` performs on a node
that carries one of the dispatched `"type"` strings but none of the other
keys that branch reads; any other type string falls through every branch to
the final `return ""`. -/
def cppGenUnsupported (t : String) : Except String String :=
  if t = "IO_STATEMENT" then .ok "print()"
  else if t = "PROGRAM" then .error "KeyError: 'statements'"
  else if t = "FUNCTION_DEFINITION" then .error "KeyError: 'body'"
  else if t = "VARIABLE_DECLARATION" then .error "KeyError: 'var_name'"
  else if t = "ASSIGNMENT" then .error "KeyError: 'var_name'"
  else if t = "EXPRESSION_STATEMENT" then .error "KeyError: 'expression'"
  else if t = "FOR_LOOP" then .error "KeyError: 'init'"
  else if t = "WHILE_LOOP" then .error "KeyError: 'condition'"
  else if t = "INCREMENT" then .error "KeyError: 'var_name'"
  else if t = "BINARY_EXPRESSION" then .error "KeyError: 'left'"
  else if t = "STRING_LITERAL" then .error "KeyError: 'value'"
  else if t = "NUMBER" then .error "KeyError: 'value'"
  else if t = "IDENTIFIER" then .error "KeyError: 'value'"
  else if t = "RETURN_STATEMENT" then .error "KeyError: 'expression'"
  else if t = "IF_STATEMENT" then .error "KeyError: 'condition'"
  else .ok ""

/-- The implicit state of a `Converter` while generating: the AST root (used
by `find_parent`), the analyzer's post-analysis scope stack (used by the
`cin` branch) and the `use_main` flag. -/
structure CppGenCtx where
  root : Node
  env : Stack
  useMain : Bool

mutual

/-- `Converter.generate_node`.  The extra `statements`/`position`/
`parentStatements` arguments mirror the source's defaulted parameters
(`None` behaves as the empty list in every use).  Dictionary accesses that
would raise in Python are `Except.error`s. -/
def cppGenNode : Nat → CppGenCtx → Node → List Node → Nat → List Node →
    Except String String
  | 0, _, _, _, _, _ => .error "out of fuel"
  | fuel+1, ctx, node, statements, position, parentStatements =>
    match node with
    | .program stmts => do
        let rendered ← cppGenStmtList fuel ctx stmts stmts 0 stmts
        .ok (pyJoin "\n" ((rendered.filter (· ≠ "")).map pyLstrip))
    | .functionDefinition _ fn body => do
        let rendered ← cppGenStmtList fuel ctx body body 0 body
        let bodyStr := pyJoin "\n" (rendered.filter (fun s => pyStrip s ≠ ""))
        if fn = "main" ∧ !ctx.useMain then .ok bodyStr
        else .ok ("def " ++ fn ++ "():\n    " ++ pyReplace bodyStr "\n" "\n    ")
    | .ioStatement ioOperator exprNodes =>
        if exprNodes.isEmpty then .ok "print()"
        else do
          let (expressions, assignments) ← cppGenIoExprs fuel ctx exprNodes ioOperator [] []
          if ioOperator = "cout" then do
            let isPrompt ←
              if !statements.isEmpty ∧ position + 1 < statements.length then
                match statements.get? (position+1) with
                | some (.ioStatement op2 _) => pure (op2 == "cin")
                | some s =>
                    if s.tag = "IO_STATEMENT" then
                      Except.error "KeyError: 'io_operator'"
                    else pure false
                | none => pure false
              else pure false
            if isPrompt ∧ expressions.length = 1 ∧
               (expressions.head?.map (pyStartsWith · "\"")).getD false then
              .ok (if assignments.isEmpty then "" else pyJoin "\n" assignments)
            else
              let fParts := expressions.foldl (fun acc e =>
                if pyStartsWith e "\"" ∧ pyEndsWith e "\"" then
                  let cleaned := pyReplace (pyStripChar '"' e) "\\n" ""
                  if cleaned ≠ "" then acc ++ [cleaned] else acc
                else acc ++ ["\x7b" ++ e ++ "\x7d"]) []
              -- `has_newline` is computed in the source but both branches
              -- assign the same f-string (lines 77-80), so it is elided
              let output := "print(f\"" ++ pyJoin "" fParts ++ "\")"
              if assignments ≠ [] then .ok (pyJoin "\n" (assignments ++ [output]))
              else .ok output
          else if ioOperator = "cin" then do
            match expressions.head? with
            | none => .error "IndexError: list index out of range"
            | some varName => do
                let vt := cppLookupVariable ctx.env varName
                let vtFinal : Option VInfo :=
                  if pyTruthyVInfo vt then vt
                  else (cppLookupVariableType varName statements position).map VInfo.vstr
                let promptResult ←
                  if !statements.isEmpty ∧ position > 0 then
                    match statements.get? (position - 1) with
                    | some (.ioStatement prevOp prevExprs) =>
                        if prevOp = "cout" then
                          match prevExprs.head? with
                          | none => Except.error "IndexError: list index out of range"
                          | some pe => do
                              let p ← cppGenNode fuel ctx pe [] 0 []
                              pure (some (pyStripChar '"' p))
                        else pure none
                    | some s =>
                        if s.tag = "IO_STATEMENT" then
                          Except.error "KeyError: 'io_operator'"
                        else pure none
                    | none => pure none
                  else pure none
                match promptResult with
                | some prompt =>
                    if vtFinal = some (.vstr "int") then
                      .ok (varName ++ " = int(input(\"" ++ prompt ++ "\"))")
                    else .ok (varName ++ " = input(\"" ++ prompt ++ "\")")
                | none =>
                    if vtFinal = some (.vstr "int") then
                      .ok (varName ++ " = int(input())")
                    else .ok (varName ++ " = input()")
          else .ok ""
            -- an io_operator other than cout/cin falls off the branch:
            -- Python returns None, which the callers treat as empty
    | .ioStatementPy _ _ => .ok "print()"
        -- the Python-parser shape has no `expressions` key, so
        -- `node.get("expressions")` is None and the branch returns early
    | .variableDeclaration _ varName initializer =>
        match initializer with
        | some init => do
            let i ← cppGenNode fuel ctx init [] 0 []
            .ok (varName ++ " = " ++ i)
        | none => .ok ""
    | .assignment varName expression =>
        match expression with
        | .binaryExpression op (.identifier lv) right =>
            if op ∈ ["+", "-", "*", "/", "%"] ∧ lv = varName then do
              let r ← cppGenNode fuel ctx right [] 0 []
              .ok (varName ++ " " ++ op ++ "= " ++ r)
            else do
              let e ← cppGenNode fuel ctx expression [] 0 []
              .ok (varName ++ " = " ++ e)
        | _ => do
            let e ← cppGenNode fuel ctx expression [] 0 []
            .ok (varName ++ " = " ++ e)
    | .expressionStatement expression => cppGenNode fuel ctx expression [] 0 []
    | .forLoopC init condition incrementNode body => do
        let startv ←
          match init with
          | .variableDeclaration _ _ (some i) => cppGenNode fuel ctx i [] 0 []
          | .assignment _ e => cppGenNode fuel ctx e [] 0 []
          | _ => .ok "0"
        let (op, endv) ←
          match condition with
          | .binaryExpression op _ right => do
              let e ← cppGenNode fuel ctx right [] 0 []
              pure (op, e)
          | _ => Except.error "KeyError: 'right'"
        let (startv, endv, step) ←
          if op = "<=" then do
            let n ← pyInt endv
            pure (startv, toString (n + 1), "1")
          else if op = "<" then pure (startv, endv, "1")
          else if op = ">" then pure (endv, startv, "-1")
          else if op = ">=" then do
            let n ← pyInt endv
            pure (startv, toString (n - 1), "-1")
          else pure (startv, endv, "1")
        let step ←
          match incrementNode with
          | none => pure step
          | some (.assignment _ (.binaryExpression iop _ r)) =>
              if iop = "+" then cppGenNode fuel ctx r [] 0 []
              else if iop = "-" then do
                let r' ← cppGenNode fuel ctx r [] 0 []
                pure ("-" ++ r')
              else pure step
          | some (.increment _ iop) => pure (if iop = "++" then "1" else "-1")
          | some _ => pure step
        let varName ←
          match nodeVarNameField init with
          | some v => pure v
          | none => Except.error "KeyError: 'var_name'"
        let rangeStr := "range(" ++ startv ++ ", " ++ endv ++ ", " ++ step ++ ")"
        let bodyStr ←
          match body with
          | .block stmts => do
              let rendered ← cppGenStmtList fuel ctx stmts stmts 0 []
              pure (pyJoin "\n" rendered)
          | b => cppGenNode fuel ctx b [] 0 []
        .ok ("for " ++ varName ++ " in " ++ rangeStr ++ ":\n    " ++
             pyReplace bodyStr "\n" "\n    ")
    | .forLoopPyLimit _ _ _ => .error "KeyError: 'init'"
    | .forLoopPyStartStop _ _ _ _ => .error "KeyError: 'init'"
    | .forLoopPyFull _ _ _ _ _ => .error "KeyError: 'init'"
    | .whileLoopC condition body => do
        let conditionStr ← cppGenNode fuel ctx condition [] 0 []
        let bodyStr ←
          match body with
          | .block stmts => do
              let rendered ← cppGenStmtList fuel ctx stmts stmts 0 parentStatements
              pure (pyJoin "\n" (rendered.filter (· ≠ "")))
          | b => cppGenNode fuel ctx b [] 0 []
        .ok ("while " ++ conditionStr ++ ":\n    " ++ pyReplace bodyStr "\n" "\n    ")
    | .whileLoopPy condition _ => do
        let _ ← cppGenNode fuel ctx condition [] 0 []
        -- the Python-parser shape stores the body as a list, which is not a
        -- dictionary; `self.generate_node(body_node)` then subscripts a list
        -- with "type" and raises
        .error "TypeError: list indices must be integers or slices, not str"
    | .increment varName op =>
        if op = "++" then .ok (varName ++ " += 1")
        else if op = "--" then .ok (varName ++ " -= 1")
        else .error ("Unsupported increment operator: " ++ op)
    | .binaryExpression op left right => do
        let l ← cppGenNode fuel ctx left [] 0 []
        let r ← cppGenNode fuel ctx right [] 0 []
        .ok (l ++ " " ++ op ++ " " ++ r)
    | .stringLiteral v => .ok v
    | .number v => .ok v
    | .identifier v => .ok v
    | .returnStatement expression => do
        let e ← cppGenNode fuel ctx expression [] 0 []
        match cppFindParentSearch (.returnStatement expression) ctx.root with
        | some (.functionDefinition _ fn _) =>
            if fn ≠ "main" then .ok ("return " ++ e) else .ok ""
        | _ => .ok ""
    | .ifStatement condition trueBranch falseBranch => do
        let conditionStr ← cppGenNode fuel ctx condition [] 0 []
        let trueStr ←
          match trueBranch with
          | .block stmts => do
              let rendered ← cppGenStmtList fuel ctx stmts stmts 0 stmts
              pure (pyJoin "\n" (rendered.filter (· ≠ "")))
          | b => cppGenNode fuel ctx b [] 0 []
        let trueStr := pyReplace trueStr "\n" "\n    "
        let base := "if " ++ conditionStr ++ ":\n    " ++ trueStr
        match falseBranch with
        | none => .ok base
        | some fb => do
            let rest ← cppGenFalseBranch fuel ctx fb
            .ok (base ++ rest)
    | .unsupported t => cppGenUnsupported t
    | _ => .ok ""

/-- A list-comprehension of `generate_node` calls over a statement container,
threading the index. -/
def cppGenStmtList : Nat → CppGenCtx → List Node → List Node → Nat → List Node →
    Except String (List String)
  | 0, _, _, _, _, _ => .error "out of fuel"
  | _+1, _, [], _, _, _ => .ok []
  | fuel+1, ctx, stmt :: rest, container, idx, ps => do
      let s ← cppGenNode fuel ctx stmt container idx ps
      let others ← cppGenStmtList fuel ctx rest container (idx+1) ps
      .ok (s :: others)

/-- The expression/assignment collection loop at the top of the
`IO_STATEMENT` branch: an `x = e` binary expression inside `cout` is split
into an assignment plus a print of the variable. -/
def cppGenIoExprs : Nat → CppGenCtx → List Node → String → List String → List String →
    Except String (List String × List String)
  | 0, _, _, _, _, _ => .error "out of fuel"
  | _+1, _, [], _, expressions, assignments => .ok (expressions, assignments)
  | fuel+1, ctx, e :: rest, ioOperator, expressions, assignments => do
      match e with
      | .binaryExpression "=" l r =>
          if ioOperator = "cout" then do
            let varName ← cppGenNode fuel ctx l [] 0 []
            let value ← cppGenNode fuel ctx r [] 0 []
            cppGenIoExprs fuel ctx rest ioOperator (expressions ++ [varName])
              (assignments ++ [varName ++ " = " ++ value])
          else do
            let s ← cppGenNode fuel ctx e [] 0 []
            cppGenIoExprs fuel ctx rest ioOperator (expressions ++ [s]) assignments
      | _ => do
          let s ← cppGenNode fuel ctx e [] 0 []
          cppGenIoExprs fuel ctx rest ioOperator (expressions ++ [s]) assignments

/-- `process_false_branch`: renders the `elif`/`else` suffix of an
if-statement chain. -/
def cppGenFalseBranch : Nat → CppGenCtx → Node → Except String String
  | 0, _, _ => .error "out of fuel"
  | fuel+1, ctx, fb =>
      match fb with
      | .ifStatement c tb fb2 => do
          let cs ← cppGenNode fuel ctx c [] 0 []
          let ts ←
            match tb with
            | .block stmts => do
                let rendered ← cppGenStmtList fuel ctx stmts stmts 0 stmts
                pure (pyJoin "\n" (rendered.filter (· ≠ "")))
            | b => cppGenNode fuel ctx b [] 0 []
          let ts := pyReplace ts "\n" "\n    "
          let seg := "\nelif " ++ cs ++ ":\n    " ++ ts
          match fb2 with
          | some f => do
              let rest ← cppGenFalseBranch fuel ctx f
              .ok (seg ++ rest)
          | none => .ok seg
      | other => do
          let fs ←
            match other with
            | .block stmts => do
                let rendered ← cppGenStmtList fuel ctx stmts stmts 0 stmts
                pure (pyJoin "\n" (rendered.filter (· ≠ "")))
            | b => cppGenNode fuel ctx b [] 0 []
          let fs := pyReplace fs "\n" "\n    "
          .ok ("\nelse:\n    " ++ fs)

end

/-- The `use_main` wrapper in `Converter.generate_code`. -/
def cppMainWrap (code : String) : String :=
  "def main():\n    " ++ pyReplace code "\n" "\n    " ++
  "\n\nif __name__ == \"__main__\":\n    main()"

/-- `Converter.generate_code`: run the semantic analyzer, return the empty
string when the diagnostic list is non-empty (`if errors:` is a truthiness
test on the whole list, warnings included), otherwise render the AST and
strip it. -/
def cppGenerateCode (fuel : Nat) (ast : Node) (useMain : Bool) : Except String String :=
  match cppAnalyze fuel ast with
  | .error e => .error e
  | .ok (errors, st) =>
    if errors ≠ [] then .ok ""
    else
      match cppGenNode fuel ⟨ast, st, useMain⟩ ast [] 0 [] with
      | .error e => .error e
      | .ok code => .ok (if useMain then cppMainWrap (pyStrip code) else pyStrip code)

/-! ## python_lexer.py — tokenizer

Same first-match-in-declaration-order scheme as the C++ lexer.  The
`BITWISE_OPERATOR` pattern is `r'&|\||~|^'`: its last alternative is an
UNESCAPED caret, i.e. the start-of-string anchor, which yields a zero-width
match whenever the current offset is 0 — reproduced faithfully below. -/

/-- Body scan of one quoted alternative of the Python `STRING` pattern
`'(?:[^'\\]|\\.)*'` (resp. with double quotes): any character other than the
quote and backslash, or a backslash escaping any character except newline. -/
def pyStringScanQuote (q : Char) : List Char → Option (List Char)
  | [] => none
  | c :: tl =>
      if c = q then some [q]
      else if c = '\\' then
        match tl with
        | d :: tl2 =>
            if d = '\n' then none
            else (pyStringScanQuote q tl2).map (fun r => '\\' :: d :: r)
        | [] => none
      else (pyStringScanQuote q tl).map (fun r => c :: r)

/-- `(?<!\\)('...'|"...")`: the lookbehind requires the previous character not
to be a backslash. -/
def pyMatchString (prev : Option Char) (rest : List Char) : Option (List Char) :=
  if prev = some '\\' then none
  else
    match rest with
    | '\'' :: tl => (pyStringScanQuote '\'' tl).map (fun r => '\'' :: r)
    | '"' :: tl => (pyStringScanQuote '"' tl).map (fun r => '"' :: r)
    | _ => none

/-- Alternatives of the Python `KEYWORD` pattern, in order. -/
def pyKeywordAlternatives : List String :=
  ["print", "input", "while", "for", "if", "elif", "else"]

/-- `\b(?:print|input|while|for|if|elif|else)\b`. -/
def pyMatchKeyword (prev : Option Char) (rest : List Char) : Option (List Char) :=
  if (prev.map isWordChar).getD false then none
  else
    pyKeywordAlternatives.findSome? fun kw =>
      if kw.data.isPrefixOf rest &&
         boundaryBetween (some 't') ((rest.drop kw.length).head?) then
        some kw.data
      else none

/-- `[a-zA-Z_][a-zA-Z0-9_]*` (no word-boundary assertions). -/
def pyMatchIdentifier (_ : Option Char) (rest : List Char) : Option (List Char) :=
  match rest with
  | c :: _ => if c.isAlpha || c = '_' then some (rest.takeWhile isWordChar) else none
  | [] => none

/-- `[<>]=?|==|!=|>=|<=` (the last two alternatives are shadowed by the
first). -/
def pyMatchComparison (_ : Option Char) (rest : List Char) : Option (List Char) :=
  match rest with
  | c :: tl =>
      if c = '<' ∨ c = '>' then
        match tl with
        | '=' :: _ => some [c, '=']
        | _ => some [c]
      else if c = '=' then
        match tl with
        | '=' :: _ => some ['=', '=']
        | _ => none
      else if c = '!' then
        match tl with
        | '=' :: _ => some ['!', '=']
        | _ => none
      else none
  | [] => none

/-- `&|\||~|^`: three literal alternatives, then the `^` ANCHOR, which gives a
zero-width match exactly when matching starts at offset 0 (the previous
character is `none`). -/
def pyMatchBitwise (prev : Option Char) (rest : List Char) : Option (List Char) :=
  match rest with
  | '&' :: _ => some ['&']
  | '|' :: _ => some ['|']
  | '~' :: _ => some ['~']
  | _ => if prev = none then some [] else none

/-- `\d+(\.\d*)?` (no word-boundary assertions, so no backtracking arises). -/
def pyMatchNumber (_ : Option Char) (rest : List Char) : Option (List Char) :=
  let ds := rest.takeWhile (·.isDigit)
  if ds.isEmpty then none
  else
    match rest.drop ds.length with
    | '.' :: tl => some (ds ++ '.' :: tl.takeWhile (·.isDigit))
    | _ => some ds

/-- The Python `TOKEN_TYPES` list, in declaration order. -/
def pyTokenPatterns : List (String × (Option Char → List Char → Option (List Char))) :=
  [("STRING", pyMatchString),
   ("KEYWORD", pyMatchKeyword),
   ("IDENTIFIER", pyMatchIdentifier),
   ("COMPARISON_OPERATOR", pyMatchComparison),
   ("ARITHMETIC_OPERATOR", fun _ => matchCharClass ['+', '-', '*', '/', '%']),
   ("ASSIGNMENT_OPERATOR", fun _ => matchFirstLiteral ["="]),
   ("LOGICAL_OPERATOR", fun _ => matchFirstLiteral ["&&", "||"]),
   ("BITWISE_OPERATOR", pyMatchBitwise),
   ("LPAREN", fun _ => matchFirstLiteral ["("]),
   ("RPAREN", fun _ => matchFirstLiteral [")"]),
   ("WHITESPACE", fun _ => matchWhitespaceRun),
   ("COLON", fun _ => matchFirstLiteral [":"]),
   ("NUMBER", pyMatchNumber),
   ("COMMA", fun _ => matchFirstLiteral [","])]

/-- One iteration of the `PythonLexer.tokenize` matching loop. -/
def pyLexStep (src : List Char) (pos : Nat) : Option (String × String × Nat) :=
  let prev := if pos = 0 then none else src.get? (pos - 1)
  let rest := src.drop pos
  pyTokenPatterns.findSome? fun p =>
    (p.2 prev rest).map fun l => (p.1, (⟨l⟩ : String), pos + l.length)

/-- The `PythonLexer.tokenize` loop: whitespace is skipped, an offset where
no pattern matches raises `ValueError` naming the position.  Note that the
position advances by the LENGTH OF THE MATCH, which is zero for the
`BITWISE_OPERATOR` anchor match. -/
def pyTokenizeAux : Nat → List Char → Nat → List Token → Except String (List Token)
  | 0, _, _, _ => .error "out of fuel"
  | fuel+1, src, pos, tokens =>
    if pos < src.length then
      match pyLexStep src pos with
      | none => .error ("Unable to tokenize at position " ++ toString pos)
      | some (name, value, pos') =>
          pyTokenizeAux fuel src pos'
            (if name = "WHITESPACE" then tokens else tokens ++ [⟨name, value⟩])
    else .ok tokens

/-- `PythonLexer.tokenize`. -/
def pyTokenize (fuel : Nat) (source : String) : Except String (List Token) :=
  pyTokenizeAux fuel source.data 0 []

/-! ## python_parser.py — recursive-descent parser -/

mutual

/-- `StatementParser.parse_statement` (Python side).  The dispatch condition
for assignments reproduces the source's operator precedence exactly: the
conditional expression binds looser than `or`, so the whole test is `False`
whenever fewer than three tokens remain. -/
def pyParseStatement : Nat → List Token → Nat → Except String (Node × Nat)
  | 0, _, _ => .error "out of fuel"
  | fuel+1, tokens, pos =>
    match tokAt tokens pos with
    | none => .error "Unexpected end of input while parsing statement"
    | some tok =>
      if tok.type = "KEYWORD" then
        if tok.value = "print" then pyParsePrintStatement fuel tokens pos
        else if tok.value = "if" then pyParseIfStatement fuel tokens pos
        else if tok.value = "while" then pyParseWhileLoop fuel tokens pos
        else if tok.value = "return" then
          .error "NotImplementedError: Return statement parsing not implemented"
        else if tok.value = "for" then pyParseForLoop fuel tokens pos
        else if tok.value ∈ ["int", "float", "void"] then
          match tokAt tokens (pos+1) with
          | some nt =>
              if nt.type = "IDENTIFIER" then
                match tokAt tokens (pos+2) with
                | some nnt =>
                    if nnt.type = "LPAREN" then pyParseFunctionDefinition fuel tokens pos
                    else pyParseVariableDeclaration fuel tokens pos
                | none => pyParseVariableDeclaration fuel tokens pos
              else .error ("Unexpected token after type: " ++ tok.value)
          | none => .error ("Unexpected token after type: " ++ tok.value)
        else if tok.value = "elif" ∨ tok.value = "else" then
          .error ("'" ++ tok.value ++ "' encountered outside of if statement context")
        else .error ("Unsupported keyword: " ++ tok.value)
      else if tok.type = "IDENTIFIER" then
        let nt := tokAt tokens (pos+1)
        if (nt.map (fun t => t.type == "LPAREN")).getD false then
          pyParseFunctionCall fuel tokens pos
        else if nt.isSome ∧
            (if pos + 2 < tokens.length then
              ((nt.map (fun t => t.type == "ASSIGNMENT_OPERATOR")).getD false) ||
              (((nt.map (fun t => t.type == "ARITHMETIC_OPERATOR")).getD false) &&
               (((tokAt tokens (pos+2)).map (fun t => t.type == "ASSIGNMENT_OPERATOR")).getD false))
            else false) then
          pyParseAssignment fuel tokens pos
        else if tok.value = "cout" ∨ tok.value = "cin" then
          pyParseIoStatement fuel tokens pos
        else .error ("Unexpected identifier usage: " ++ tok.value)
      else if tok.type = "LBRACE" then pyParseBlock fuel tokens pos
      else .error ("Unexpected token: " ++ tok.type ++ " " ++ tok.value)
  termination_by structural a1 _ _ => a1

/-- `StatementParser.parse_function_definition` (Python side). -/
def pyParseFunctionDefinition : Nat → List Token → Nat → Except String (Node × Nat)
  | 0, _, _ => .error "out of fuel"
  | fuel+1, tokens, pos => do
      let (rt, pos) ← cppMatchTok tokens pos "KEYWORD"
      let (fn, pos) ← cppMatchTok tokens pos "IDENTIFIER"
      let (_, pos) ← cppMatchTok tokens pos "LPAREN"
      let (_, pos) ← cppMatchTok tokens pos "RPAREN"
      let (body, pos) ← pyParseBlock fuel tokens pos
      match body with
      | .block stmts => .ok (.functionDefinition rt.value fn.value stmts, pos)
      | _ => .error "KeyError: 'statements'"
  termination_by structural a1 _ _ => a1

/-- `StatementParser.parse_for_loop` (Python side): `for i in range(...)`
with one, two or three arguments, and a single-statement body. -/
def pyParseForLoop : Nat → List Token → Nat → Except String (Node × Nat)
  | 0, _, _ => .error "out of fuel"
  | fuel+1, tokens, pos => do
      let (_, pos) ← cppMatchTok tokens pos "KEYWORD"
      let (iterTok, pos) ← cppMatchTok tokens pos "IDENTIFIER"
      let (_, pos) ← cppMatchTok tokens pos "IDENTIFIER"
      let (rangeTok, pos) ← cppMatchTok tokens pos "IDENTIFIER"
      if rangeTok.value ≠ "range" then
        .error "Expected 'range' after 'in' in for loop"
      else do
        let (_, pos) ← cppMatchTok tokens pos "LPAREN"
        let (first, pos) ← pyParseExpression fuel tokens pos
        let (stopStep, pos) ←
          if ((tokAt tokens pos).map (fun t => t.type == "COMMA")).getD false then do
            let (_, pos) ← cppMatchTok tokens pos "COMMA"
            let (stopExpr, pos) ← pyParseExpression fuel tokens pos
            if ((tokAt tokens pos).map (fun t => t.type == "COMMA")).getD false then do
              let (_, pos) ← cppMatchTok tokens pos "COMMA"
              let (stepExpr, pos) ← pyParseExpression fuel tokens pos
              pure ((some (stopExpr, some stepExpr), pos))
            else pure ((some (stopExpr, (none : Option Node)), pos))
          else pure ((none, pos))
        let (_, pos) ← cppMatchTok tokens pos "RPAREN"
        let (_, pos) ← cppMatchTok tokens pos "COLON"
        let (bodyStmt, pos) ← pyParseStatement fuel tokens pos
        match stopStep with
        | none => .ok (.forLoopPyLimit iterTok.value first [bodyStmt], pos)
        | some (stopExpr, none) =>
            .ok (.forLoopPyStartStop iterTok.value first stopExpr [bodyStmt], pos)
        | some (stopExpr, some stepExpr) =>
            .ok (.forLoopPyFull iterTok.value first stopExpr stepExpr [bodyStmt], pos)
  termination_by structural a1 _ _ => a1

/-- Body loop of `StatementParser.parse_while_loop` (Python side): statements
accumulate until a token whose VALUE is `while` or `for`, or end of input. -/
def pyParseWhileBody : Nat → List Token → Nat → List Node → Except String (List Node × Nat)
  | 0, _, _, _ => .error "out of fuel"
  | fuel+1, tokens, pos, acc =>
      match tokAt tokens pos with
      | some t =>
          if t.value ≠ "while" ∧ t.value ≠ "for" then do
            let (stmt, pos') ← pyParseStatement fuel tokens pos
            pyParseWhileBody fuel tokens pos' (acc ++ [stmt])
          else .ok (acc, pos)
      | none => .ok (acc, pos)
  termination_by structural a1 _ _ _ => a1

/-- `StatementParser.parse_while_loop` (Python side). -/
def pyParseWhileLoop : Nat → List Token → Nat → Except String (Node × Nat)
  | 0, _, _ => .error "out of fuel"
  | fuel+1, tokens, pos => do
      let (_, pos) ← cppMatchTok tokens pos "KEYWORD"
      let (condition, pos) ← pyParseExpression fuel tokens pos
      let (_, pos) ← cppMatchTok tokens pos "COLON"
      let (body, pos) ← pyParseWhileBody fuel tokens pos []
      .ok (.whileLoopPy condition body, pos)
  termination_by structural a1 _ _ => a1

/-- `StatementParser.parse_variable_declaration` (Python side); the trailing
semicolon is optional. -/
def pyParseVariableDeclaration : Nat → List Token → Nat → Except String (Node × Nat)
  | 0, _, _ => .error "out of fuel"
  | fuel+1, tokens, pos => do
      let (vt, pos) ← cppMatchTok tokens pos "KEYWORD"
      let (vn, pos) ← cppMatchTok tokens pos "IDENTIFIER"
      if ((tokAt tokens pos).map (fun t => t.type == "ASSIGNMENT_OPERATOR")).getD false then do
        let (_, pos) ← cppMatchTok tokens pos "ASSIGNMENT_OPERATOR"
        let (initializer, pos) ← pyParseExpression fuel tokens pos
        let pos := if ((tokAt tokens pos).map (fun t => t.type == "SEMICOLON")).getD false
                   then pos + 1 else pos
        .ok (.variableDeclaration vt.value vn.value (some initializer), pos)
      else do
        let pos := if ((tokAt tokens pos).map (fun t => t.type == "SEMICOLON")).getD false
                   then pos + 1 else pos
        .ok (.variableDeclaration vt.value vn.value none, pos)

/-- `StatementParser.parse_assignment` (Python side): `x = e`, or `x op e`
with `op` an arithmetic token followed by `=`, desugared into a
`BINARY_EXPRESSION` with the identifier on the left. -/
def pyParseAssignment : Nat → List Token → Nat → Except String (Node × Nat)
  | 0, _, _ => .error "out of fuel"
  | fuel+1, tokens, pos => do
      let (varTok, pos) ← cppMatchTok tokens pos "IDENTIFIER"
      match tokAt tokens pos with
      | none => .error "TypeError: 'NoneType' object is not subscriptable"
      | some nt => do
          let (expression, pos) ←
            if nt.type = "ASSIGNMENT_OPERATOR" then do
              let (_, pos) ← cppMatchTok tokens pos "ASSIGNMENT_OPERATOR"
              pyParseExpression fuel tokens pos
            else if nt.type = "ARITHMETIC_OPERATOR" then do
              let (opTok, pos) ← cppMatchTok tokens pos "ARITHMETIC_OPERATOR"
              let (_, pos) ← cppMatchTok tokens pos "ASSIGNMENT_OPERATOR"
              let (right, pos) ← pyParseExpression fuel tokens pos
              pure ((Node.binaryExpression opTok.value (.identifier varTok.value) right, pos))
            else .error ("Expected assignment operator after " ++ varTok.value)
          let pos := if ((tokAt tokens pos).map (fun t => t.type == "SEMICOLON")).getD false
                     then pos + 1 else pos
          .ok (.assignment varTok.value expression, pos)

/-- The comma-separated argument loop shared verbatim by
`StatementParser.parse_arguments` and `ExpressionParser.parse_arguments`. -/
def pyParseArguments : Nat → List Token → Nat → List Node → Except String (List Node × Nat)
  | 0, _, _, _ => .error "out of fuel"
  | fuel+1, tokens, pos, acc =>
      match tokAt tokens pos with
      | some t =>
          if t.type ≠ "RPAREN" then do
            let (arg, pos) ← pyParseExpression fuel tokens pos
            let pos := if ((tokAt tokens pos).map (fun t => t.type == "COMMA")).getD false
                       then pos + 1 else pos
            pyParseArguments fuel tokens pos (acc ++ [arg])
          else .ok (acc, pos)
      | none => .ok (acc, pos)
  termination_by structural a1 _ _ _ => a1

/-- `StatementParser.parse_function_call` (Python side). -/
def pyParseFunctionCall : Nat → List Token → Nat → Except String (Node × Nat)
  | 0, _, _ => .error "out of fuel"
  | fuel+1, tokens, pos => do
      let (fn, pos) ← cppMatchTok tokens pos "IDENTIFIER"
      let (_, pos) ← cppMatchTok tokens pos "LPAREN"
      let (args, pos) ← pyParseArguments fuel tokens pos []
      let (_, pos) ← cppMatchTok tokens pos "RPAREN"
      let pos := if ((tokAt tokens pos).map (fun t => t.type == "SEMICOLON")).getD false
                 then pos + 1 else pos
      .ok (.functionCall fn.value args, pos)

/-- The `elif`/`else` loop of `StatementParser.parse_if_statement` (Python
side), returned as the false-branch chain it mutates into place: each `elif`
becomes an `IF_STATEMENT` linked through the false branch, a final `else`
body ends the chain as a `BLOCK`. -/
def pyParseElifChain : Nat → List Token → Nat → Except String (Option Node × Nat)
  | 0, _, _ => .error "out of fuel"
  | fuel+1, tokens, pos =>
      match tokAt tokens pos with
      | some t =>
          if t.value = "elif" then do
            let (_, pos) ← cppMatchTok tokens pos "KEYWORD"
            let (c, pos) ← pyParseExpression fuel tokens pos
            let (_, pos) ← cppMatchTok tokens pos "COLON"
            let (body, pos) ←
              match tokAt tokens pos with
              | some _ => do
                  let (stmt, pos) ← pyParseStatement fuel tokens pos
                  pure (([stmt], pos))
              | none => pure (([], pos))
            let (rest, pos) ← pyParseElifChain fuel tokens pos
            .ok (some (.ifStatement c (.block body) rest), pos)
          else if t.value = "else" then do
            let (_, pos) ← cppMatchTok tokens pos "KEYWORD"
            let (_, pos) ← cppMatchTok tokens pos "COLON"
            let (body, pos) ←
              match tokAt tokens pos with
              | some _ => do
                  let (stmt, pos) ← pyParseStatement fuel tokens pos
                  pure (([stmt], pos))
              | none => pure (([], pos))
            .ok (some (.block body), pos)
          else .ok (none, pos)
      | none => .ok (none, pos)
  termination_by structural a1 _ _ => a1

/-- `StatementParser.parse_if_statement` (Python side): single-statement
branches wrapped into blocks. -/
def pyParseIfStatement : Nat → List Token → Nat → Except String (Node × Nat)
  | 0, _, _ => .error "out of fuel"
  | fuel+1, tokens, pos => do
      let (_, pos) ← cppMatchTok tokens pos "KEYWORD"
      let (condition, pos) ← pyParseExpression fuel tokens pos
      let (_, pos) ← cppMatchTok tokens pos "COLON"
      let (trueBody, pos) ←
        match tokAt tokens pos with
        | some _ => do
            let (stmt, pos) ← pyParseStatement fuel tokens pos
            pure (([stmt], pos))
        | none => pure (([], pos))
      let (falseBranch, pos) ← pyParseElifChain fuel tokens pos
      .ok (.ifStatement condition (.block trueBody) falseBranch, pos)
  termination_by structural a1 _ _ => a1

/-- `StatementParser.parse_io_statement` (Python side).  The Python lexer has
no `INSERTION_OPERATOR` token type, so with its own token stream this always
raises. -/
def pyParseIoStatement : Nat → List Token → Nat → Except String (Node × Nat)
  | 0, _, _ => .error "out of fuel"
  | fuel+1, tokens, pos => do
      let (ioTok, pos) ← cppMatchTok tokens pos "IDENTIFIER"
      if ((tokAt tokens pos).map (fun t => t.type == "INSERTION_OPERATOR")).getD false then do
        let (_, pos) ← cppMatchTok tokens pos "INSERTION_OPERATOR"
        let (expression, pos) ← pyParseExpression fuel tokens pos
        let (_, pos) ← cppMatchTok tokens pos "SEMICOLON"
        .ok (.ioStatementPy ioTok.value expression, pos)
      else .error ("Expected insertion operator after " ++ ioTok.value)

/-- `StatementParser.parse_print_statement`. -/
def pyParsePrintStatement : Nat → List Token → Nat → Except String (Node × Nat)
  | 0, _, _ => .error "out of fuel"
  | fuel+1, tokens, pos => do
      let (_, pos) ← cppMatchTok tokens pos "KEYWORD"
      let (_, pos) ← cppMatchTok tokens pos "LPAREN"
      let (args, pos) ← pyParseArguments fuel tokens pos []
      let (_, pos) ← cppMatchTok tokens pos "RPAREN"
      .ok (.printStatement args, pos)

/-- Loop body of `StatementParser.parse_block` (Python side). -/
def pyParseBlockStmts : Nat → List Token → Nat → List Node → Except String (List Node × Nat)
  | 0, _, _, _ => .error "out of fuel"
  | fuel+1, tokens, pos, acc =>
      match tokAt tokens pos with
      | some t =>
          if t.type ≠ "RBRACE" then do
            let (stmt, pos') ← pyParseStatement fuel tokens pos
            pyParseBlockStmts fuel tokens pos' (acc ++ [stmt])
          else .ok (acc, pos)
      | none => .ok (acc, pos)
  termination_by structural a1 _ _ _ => a1

/-- `StatementParser.parse_block` (Python side). -/
def pyParseBlock : Nat → List Token → Nat → Except String (Node × Nat)
  | 0, _, _ => .error "out of fuel"
  | fuel+1, tokens, pos => do
      let (_, pos) ← cppMatchTok tokens pos "LBRACE"
      let (stmts, pos) ← pyParseBlockStmts fuel tokens pos []
      let (_, pos) ← cppMatchTok tokens pos "RBRACE"
      .ok (.block stmts, pos)
  termination_by structural a1 _ _ => a1

/-- Binary-chain loop of `ExpressionParser.parse_expression` (Python side):
flat and left-associative over arithmetic, relational and comparison
tokens. -/
def pyParseExprLoop : Nat → List Token → Nat → Node → Except String (Node × Nat)
  | 0, _, _, _ => .error "out of fuel"
  | fuel+1, tokens, pos, left =>
      match tokAt tokens pos with
      | some t =>
          if t.type ∈ ["ARITHMETIC_OPERATOR", "RELATIONAL_OPERATOR", "COMPARISON_OPERATOR"] then do
            let (opTok, pos) ← cppMatchTok tokens pos t.type
            let (right, pos) ← pyParseTerm fuel tokens pos
            pyParseExprLoop fuel tokens pos (.binaryExpression opTok.value left right)
          else .ok (left, pos)
      | none => .ok (left, pos)
  termination_by structural a1 _ _ _ => a1

/-- `ExpressionParser.parse_expression` (Python side). -/
def pyParseExpression : Nat → List Token → Nat → Except String (Node × Nat)
  | 0, _, _ => .error "out of fuel"
  | fuel+1, tokens, pos => do
      let (left, pos) ← pyParseTerm fuel tokens pos
      pyParseExprLoop fuel tokens pos left
  termination_by structural a1 _ _ => a1

/-- `ExpressionParser.parse_term` (Python side): numbers, strings,
identifiers or keywords (as function-call heads), and parenthesised
expressions. -/
def pyParseTerm : Nat → List Token → Nat → Except String (Node × Nat)
  | 0, _, _ => .error "out of fuel"
  | fuel+1, tokens, pos =>
      match tokAt tokens pos with
      | none => .error "Unexpected end of input in expression"
      | some t =>
          if t.type = "NUMBER" then
            (cppMatchTok tokens pos "NUMBER").map fun (tk, p) => (Node.number tk.value, p)
          else if t.type = "STRING" then
            (cppMatchTok tokens pos "STRING").map fun (tk, p) => (Node.stringLiteral tk.value, p)
          else if t.type = "IDENTIFIER" ∨ t.type = "KEYWORD" then do
            let (tk, pos) ← cppMatchTok tokens pos t.type
            if ((tokAt tokens pos).map (fun u => u.type == "LPAREN")).getD false then do
              let (_, pos) ← cppMatchTok tokens pos "LPAREN"
              let (args, pos) ← pyParseArguments fuel tokens pos []
              let (_, pos) ← cppMatchTok tokens pos "RPAREN"
              .ok (.functionCall tk.value args, pos)
            else if t.type = "IDENTIFIER" then .ok (.identifier tk.value, pos)
            else .error ("Keyword '" ++ tk.value ++ "' used outside of function call")
          else if t.type = "LPAREN" then do
            let (_, pos) ← cppMatchTok tokens pos "LPAREN"
            let (expression, pos) ← pyParseExpression fuel tokens pos
            let (_, pos) ← cppMatchTok tokens pos "RPAREN"
            .ok (expression, pos)
          else .error ("Unexpected token in expression: " ++ pyTokenRepr (some t))
  termination_by structural a1 _ _ => a1

end

/-- `PythonParser.is_function_definition` (identical to the C++ side). -/
def pyIsFunctionDefinition (tokens : List Token) (pos : Nat) : Bool :=
  cppIsFunctionDefinition tokens pos

/-- Loop body of `PythonParser.parse_program`. -/
def pyParseProgramAux : Nat → List Token → Nat → List Node → Except String (List Node × Nat)
  | 0, _, _, _ => .error "out of fuel"
  | fuel+1, tokens, pos, acc =>
      match tokAt tokens pos with
      | none => .ok (acc, pos)
      | some _ => do
          let (stmt, pos') ←
            if pyIsFunctionDefinition tokens pos then pyParseFunctionDefinition fuel tokens pos
            else pyParseStatement fuel tokens pos
          pyParseProgramAux fuel tokens pos' (acc ++ [stmt])

/-- `PythonParser.parse_program`. -/
def pyParseProgram (fuel : Nat) (tokens : List Token) : Except String Node :=
  (pyParseProgramAux fuel tokens 0 []).map fun (stmts, _) => .program stmts

/-! ## python_semantic_analyzer.py

The analyzer keeps NO symbol table: it only checks the structural shape of
each statement, recursing into loop bodies and branches by re-invoking
`analyze` on wrapper dictionaries.  Diagnostics are returned in encounter
order. -/

mutual

/-- One statement's contribution to `PythonSemanticAnalyzer.analyze`. -/
def pyAnalyzeStatement : Node → Except String (List String)
  | .printStatement args =>
      if args.isEmpty then
        .ok ["Print statement must have at least one argument to print."]
      else
        .ok (args.foldl (fun acc arg =>
          if arg.tag ∉ ["STRING_LITERAL", "IDENTIFIER", "BINARY_EXPRESSION", "NUMBER",
                        "FUNCTION_CALL"] then
            acc ++ ["Print statement only supports string literals, identifiers, binary expressions, numbers, or function calls. Found: " ++ arg.tag]
          else acc) [])
  | .assignment varName expr => do
      let nameErrs :=
        if varName = "" then
          ["Assignment must have a valid variable name, got: " ++ varName]
        else []
      let callErrs :=
        match expr with
        | .functionCall fn _ =>
            if fn ∉ ["input", "int"] then
              ["Unsupported function call '" ++ fn ++ "' in assignment."]
            else []
        | _ => []
      .ok (nameErrs ++ callErrs)
  | .forLoopPyLimit iterName _ body => do
      let iterErrs :=
        if iterName = "" then ["For loop must have a valid iterator variable."] else []
      let bodyErrs ← pyAnalyzeStatements body
      .ok (iterErrs ++ bodyErrs)
  | .forLoopPyStartStop iterName _ _ body => do
      let iterErrs :=
        if iterName = "" then ["For loop must have a valid iterator variable."] else []
      let bodyErrs ← pyAnalyzeStatements body
      .ok (iterErrs ++ bodyErrs)
  | .forLoopPyFull iterName _ _ _ body => do
      let iterErrs :=
        if iterName = "" then ["For loop must have a valid iterator variable."] else []
      let bodyErrs ← pyAnalyzeStatements body
      .ok (iterErrs ++ bodyErrs)
  | .forLoopC _ _ _ _ =>
      -- a C++-shaped FOR_LOOP dictionary has neither `iterator` nor
      -- `limit`/`start`/`stop`, and its body is not a list
      .ok ["For loop must have a valid iterator variable.",
           "For loop with multiple arguments must have a start value.",
           "For loop with multiple arguments must have a stop value.",
           "For loop body must be a list of statements."]
  | .whileLoopPy condition body => do
      let condErrs :=
        if condition.tag ∉ ["BINARY_EXPRESSION", "IDENTIFIER", "NUMBER", "STRING_LITERAL",
                            "FUNCTION_CALL"] then
          ["Invalid condition type in while loop: " ++ condition.tag]
        else []
      let bodyErrs ← pyAnalyzeStatements body
      .ok (condErrs ++ bodyErrs)
  | .whileLoopC condition _ =>
      .ok ((if condition.tag ∉ ["BINARY_EXPRESSION", "IDENTIFIER", "NUMBER",
                                "STRING_LITERAL", "FUNCTION_CALL"] then
              ["Invalid condition type in while loop: " ++ condition.tag]
            else []) ++
           ["While loop body must be a list of statements."])
  | .ifStatement condition trueBranch falseBranch => do
      let condErrs :=
        if condition.tag ∉ ["BINARY_EXPRESSION", "IDENTIFIER", "NUMBER", "STRING_LITERAL",
                            "FUNCTION_CALL"] then
          ["Invalid condition type in if statement: " ++ condition.tag]
        else []
      let trueErrs ←
        match trueBranch with
        | .block stmts => pyAnalyzeStatements stmts
        | b => pyAnalyzeStatement b
      let falseErrs ←
        match falseBranch with
        | some (.block stmts) => pyAnalyzeStatements stmts
        | some fb => pyAnalyzeStatement fb
        | none => pure []
      .ok (condErrs ++ trueErrs ++ falseErrs)
  | .functionCall _ _ => .ok []
  | .returnStatement _ => .ok []
  | .variableDeclaration _ _ initializer =>
      match initializer with
      | some init =>
          if init.tag ∉ ["NUMBER", "STRING_LITERAL", "IDENTIFIER", "BINARY_EXPRESSION",
                         "FUNCTION_CALL"] then
            .ok ["Variable initializer must be a valid expression, got: " ++ init.tag]
          else .ok []
      | none => .ok []
  | .ioStatement _ _ =>
      -- the C++-parser shape has `expressions`, not `expression`
      .ok ["IO statement must have an operator and expression."]
  | .ioStatementPy _ _ => .ok []
  | .block stmts => pyAnalyzeStatements stmts
  | .unsupported t =>
      if t = "PRINT_STATEMENT" then
        .ok ["Print statement must have at least one argument to print."]
      else if t = "ASSIGNMENT" then .error "KeyError: 'var_name'"
      else if t = "FOR_LOOP" then
        .ok ["For loop must have a valid iterator variable.",
             "For loop with multiple arguments must have a start value.",
             "For loop with multiple arguments must have a stop value.",
             "For loop must have a body."]
      else if t = "WHILE_LOOP" then
        .ok ["While loop must have a condition.", "While loop must have a body."]
      else if t = "IF_STATEMENT" then
        .ok ["If statement must have a condition.", "If statement must have a true branch."]
      else if t = "FUNCTION_CALL" then
        .ok ["Function call must have a name and arguments."]
      else if t = "RETURN_STATEMENT" then
        .ok ["Return statement must have an expression."]
      else if t = "VARIABLE_DECLARATION" then
        .ok ["Variable declaration must have a type and name."]
      else if t = "IO_STATEMENT" then
        .ok ["IO statement must have an operator and expression."]
      else if t = "BLOCK" then .error "KeyError: 'statements'"
      else .ok ["Unsupported statement type: " ++ t]
  | n => .ok ["Unsupported statement type: " ++ n.tag]

/-- The statement loop of `PythonSemanticAnalyzer.analyze`. -/
def pyAnalyzeStatements : List Node → Except String (List String)
  | [] => .ok []
  | stmt :: rest => do
      let here ← pyAnalyzeStatement stmt
      let there ← pyAnalyzeStatements rest
      .ok (here ++ there)

end

/-- `PythonSemanticAnalyzer.analyze` as called on a parsed program (or on the
wrapper dictionaries it builds for itself); any other node lacks the
`statements` key. -/
def pyAnalyze : Node → Except String (List String)
  | .program stmts => pyAnalyzeStatements stmts
  | .block stmts => pyAnalyzeStatements stmts
  | _ => .error "KeyError: 'statements'"

/-! ## python_to_cpp_converter.py -/

/-- `PythonToCppConverter.determine_value_type`. -/
def pyToCppDetermineValueType : Node → String
  | .number _ => "number"
  | .stringLiteral _ => "string"
  | .functionCall fn _ =>
      if fn = "input" then "string"
      else if fn = "int" then "number"
      else "unknown"
  | .binaryExpression "+" l r =>
      let lt := pyToCppDetermineValueType l
      let rt := pyToCppDetermineValueType r
      if lt = "string" ∨ rt = "string" then "string" else "number"
  | _ => "unknown"

/-- The dictionary-key accesses `PythonToCppConverter.generate_expression`
performs on a node carrying one of its dispatched `"type"` strings but no
other keys; any other type string reaches the final `return ""`. -/
def pyToCppExprUnsupported (t : String) : Except String String :=
  if t = "STRING_LITERAL" then .error "KeyError: 'value'"
  else if t = "IDENTIFIER" then .error "KeyError: 'value'"
  else if t = "NUMBER" then .error "KeyError: 'value'"
  else if t = "BINARY_EXPRESSION" then .error "KeyError: 'left'"
  else if t = "FUNCTION_CALL" then .error "KeyError: 'func_name'"
  else .ok ""

/-- The dictionary-key accesses `PythonToCppConverter.process_node` performs
on a node carrying one of its dispatched `"type"` strings but no other keys;
any other type string reaches the final `return ""`. -/
def pyToCppProcessUnsupported (t : String) (vars : List String) :
    Except String (String × List String) :=
  if t = "ASSIGNMENT" then .error "KeyError: 'var_name'"
  else if t = "PRINT_STATEMENT" then .error "KeyError: 'args'"
  else if t = "IF_STATEMENT" then .error "KeyError: 'condition'"
  else if t = "WHILE_LOOP" then .error "KeyError: 'condition'"
  else if t = "FOR_LOOP" then .error "KeyError: 'iterator'"
  else if t = "BLOCK" then .error "KeyError: 'statements'"
  else .ok ("", vars)

mutual

/-- `PythonToCppConverter.generate_expression`.  `targetVar = some v` is a
truthy `target_var` argument (variable names from the parser are never
empty); `wrapBinary` is the `wrap_binary` flag. -/
def pyToCppGenerateExpression (node : Node) (targetVar : Option String) (wrapBinary : Bool) :
    Except String String :=
  match node with
  | .stringLiteral v => .ok ("\"" ++ ((v.drop 1).dropRight 1) ++ "\"")
  | .identifier v => .ok v
  | .number v => .ok v
  | .binaryExpression op l r => do
      let lv ← pyToCppGenerateExpression l none false
      let rv ← pyToCppGenerateExpression r none false
      let expr := lv ++ " " ++ op ++ " " ++ rv
      .ok (if wrapBinary then "(" ++ expr ++ ")" else expr)
  | .functionCall fn args => do
      let argStrs ← pyToCppGenExprList args
      match targetVar with
      | some tv =>
          if fn = "input" then
            .ok ("    cout << " ++ argStrs.headD "\"\"" ++ ";\n    cin >> " ++ tv ++ ";")
          else if fn = "int" then
            -- `nested_input = node["args"][0]` raises on an empty list; the
            -- nested prompt is `args[0]` of the inner input call when present
            match args with
            | [] => .error "IndexError: list index out of range"
            | .functionCall "input" (a :: _) :: _ => do
                let prompt ← pyToCppGenerateExpression a none false
                .ok ("    cout << " ++ prompt ++ ";\n    cin >> " ++ tv ++ ";")
            | .functionCall "input" [] :: _ =>
                .ok ("    cout << " ++ "\"\"" ++ ";\n    cin >> " ++ tv ++ ";")
            | _ :: _ => .ok ""
          else .ok ""
      | none => .ok ""
  | .unsupported t => pyToCppExprUnsupported t
  | _ => .ok ""

/-- The eager argument list `[self.generate_expression(arg) for arg in
node["args"]]`. -/
def pyToCppGenExprList : List Node → Except String (List String)
  | [] => .ok []
  | a :: rest => do
      let s ← pyToCppGenerateExpression a none false
      let others ← pyToCppGenExprList rest
      .ok (s :: others)

end

/-- The regular-assignment tail of the `ASSIGNMENT` branch of
`process_node`. -/
def pyToCppRegularAssignment (vars : List String) (varName : String) (expr : Node) :
    Except String (String × List String) :=
  match pyToCppGenerateExpression expr (some varName) false with
  | .error e => .error e
  | .ok exprResult =>
  if !(vars.contains varName) then
    let vars := vars ++ [varName]
    let vt := pyToCppDetermineValueType expr
    if vt = "string" then
      if pyStartsWith exprResult "    cout" then
        .ok ("    string " ++ varName ++ ";\n" ++ exprResult, vars)
      else .ok ("    string " ++ varName ++ " = " ++ exprResult ++ ";", vars)
    else if vt = "number" then
      if pyStartsWith exprResult "    cout" then
        .ok ("    int " ++ varName ++ ";\n" ++ exprResult, vars)
      else .ok ("    int " ++ varName ++ " = " ++ exprResult ++ ";", vars)
    else .ok ("    auto " ++ varName ++ " = " ++ exprResult ++ ";", vars)
  else
    .ok (if exprResult ≠ "" then "    " ++ varName ++ " = " ++ exprResult ++ ";" else "", vars)

/-- The argument list of the `PRINT_STATEMENT` branch
(`wrap_binary=True`). -/
def pyToCppGenPrintArgs : List Node → Except String (List String)
  | [] => .ok []
  | a :: rest => do
      let s ← pyToCppGenerateExpression a none true
      let others ← pyToCppGenPrintArgs rest
      .ok (s :: others)

/-- Shared rendering tail of the `FOR_LOOP` branch, applied to the
already-processed body lines: the loop always renders with the `<`
comparison, and the iterator joins the variable set only afterwards. -/
def pyToCppForCommon (vars : List String) (iterName startStr stopStr stepStr : String)
    (lines : List String) : String × List String :=
  let bodyStr := pyJoin "\n" ((lines.filter (· ≠ "")).map (fun l => "        " ++ pyRstrip l))
  let incrementStr := if stepStr = "1" then iterName ++ "++" else iterName ++ " += " ++ stepStr
  if !(vars.contains iterName) then
    ("    for (int " ++ iterName ++ " = " ++ startStr ++ "; " ++ iterName ++ " < " ++
     stopStr ++ "; " ++ incrementStr ++ ") \x7b\n" ++ bodyStr ++ "\n    \x7d",
     vars ++ [iterName])
  else
    ("    for (" ++ iterName ++ " = " ++ startStr ++ "; " ++ iterName ++ " < " ++
     stopStr ++ "; " ++ incrementStr ++ ") \x7b\n" ++ bodyStr ++ "\n    \x7d", vars)
mutual

/-- `PythonToCppConverter.process_node`: returns the rendered text and the
updated `self.variables` set (kept as an insertion-ordered list, membership
being all the source ever asks of it).  The fuel parameter bounds the
recursion depth; the source's recursion is the `fuel+1` equations. -/
def pyToCppProcessNode : Nat → List String → Node → Except String (String × List String)
  | 0, _, _ => .error "out of fuel"
  | fuel+1, vars, node =>
    match node with
    | .assignment varName expr =>
        match expr with
        | .binaryExpression op (.identifier lv) r =>
            if op ∈ ["+", "-", "*", "/", "%"] ∧ lv = varName then
              match pyToCppGenerateExpression r none false with
              | .error e => .error e
              | .ok right =>
              if !(vars.contains varName) then
                let vars := vars ++ [varName]
                let vt := pyToCppDetermineValueType r
                if vt = "string" then
                  .ok ("    string " ++ varName ++ " = " ++ right ++ ";\n    " ++
                       varName ++ " " ++ op ++ "= " ++ right ++ ";", vars)
                else if vt = "number" then
                  .ok ("    int " ++ varName ++ " = " ++ right ++ ";\n    " ++
                       varName ++ " " ++ op ++ "= " ++ right ++ ";", vars)
                else
                  .ok ("    auto " ++ varName ++ " = " ++ right ++ ";\n    " ++
                       varName ++ " " ++ op ++ "= " ++ right ++ ";", vars)
              else .ok ("    " ++ varName ++ " " ++ op ++ "= " ++ right ++ ";", vars)
            else pyToCppRegularAssignment vars varName expr
        | _ => pyToCppRegularAssignment vars varName expr
    | .printStatement args => do
        let cppArgs ← pyToCppGenPrintArgs args
        .ok ("    cout << " ++ pyJoin " << " cppArgs ++ " << endl;", vars)
    | .ifStatement condition trueBranch falseBranch => do
        let conditionStr ← pyToCppGenerateExpression condition none false
        let (body, vars) ←
          match trueBranch with
          | .block stmts => do
              let (lines, vars) ← pyToCppProcessList fuel vars stmts
              pure ((pyJoin "\n" ((lines.filter (· ≠ "")).map (fun l => "        " ++ l)), vars))
          | b => do
              let (s, vars) ← pyToCppProcessNode fuel vars b
              pure (((if s ≠ "" then "        " ++ s else ""), vars))
        let base := "    if (" ++ conditionStr ++ ") \x7b\n" ++ body ++ "\n    \x7d"
        match falseBranch with
        | none => .ok (base, vars)
        | some fb => do
            let (suffix, vars) ← pyToCppFalseChain fuel vars fb
            .ok (base ++ suffix, vars)
    | .whileLoopPy condition body => do
        let conditionStr ← pyToCppGenerateExpression condition none false
        let (lines, vars) ← pyToCppProcessList fuel vars body
        let bodyStr := pyJoin "\n" ((lines.filter (· ≠ "")).map (fun l => "        " ++ pyRstrip l))
        .ok ("    while (" ++ conditionStr ++ ") \x7b\n" ++ bodyStr ++ "\n    \x7d", vars)
    | .whileLoopC _ _ =>
        -- `for stmt in node["body"]` iterates the body DICTIONARY, yielding
        -- its string keys, and `stmt["type"]` then raises
        .error "TypeError: string indices must be integers"
    | .forLoopPyLimit iterName limit body => do
        let stopStr ← pyToCppGenerateExpression limit none false
        let (lines, vars) ← pyToCppProcessList fuel vars body
        .ok (pyToCppForCommon vars iterName "0" stopStr "1" lines)
    | .forLoopPyStartStop iterName startE stopE body => do
        let startStr ← pyToCppGenerateExpression startE none false
        let stopStr ← pyToCppGenerateExpression stopE none false
        let (lines, vars) ← pyToCppProcessList fuel vars body
        .ok (pyToCppForCommon vars iterName startStr stopStr "1" lines)
    | .forLoopPyFull iterName startE stopE stepE body => do
        let startStr ← pyToCppGenerateExpression startE none false
        let stopStr ← pyToCppGenerateExpression stopE none false
        let stepStr ← pyToCppGenerateExpression stepE none false
        let (lines, vars) ← pyToCppProcessList fuel vars body
        .ok (pyToCppForCommon vars iterName startStr stopStr stepStr lines)
    | .forLoopC _ _ _ _ => .error "KeyError: 'iterator'"
    | .block stmts => do
        let (lines, vars) ← pyToCppProcessList fuel vars stmts
        .ok (pyJoin "\n" ((lines.filter (· ≠ "")).map (fun l => "    " ++ pyStrip l)), vars)
    | .unsupported t => pyToCppProcessUnsupported t vars
    | _ => .ok ("", vars)
  termination_by structural a1 _ _ => a1

/-- Sequential processing of a statement list, threading the variable set. -/
def pyToCppProcessList : Nat → List String → List Node → Except String (List String × List String)
  | 0, _, _ => .error "out of fuel"
  | _+1, vars, [] => .ok ([], vars)
  | fuel+1, vars, stmt :: rest => do
      let (s, vars) ← pyToCppProcessNode fuel vars stmt
      let (others, vars) ← pyToCppProcessList fuel vars rest
      .ok (s :: others, vars)
  termination_by structural a1 _ _ => a1

/-- The `while false_branch:` loop of the `IF_STATEMENT` branch, rendered as
the `else if`/`else` suffix. -/
def pyToCppFalseChain : Nat → List String → Node → Except String (String × List String)
  | 0, _, _ => .error "out of fuel"
  | fuel+1, vars, fb =>
    match fb with
    | .ifStatement c tb fb2 => do
        let elifCondition ← pyToCppGenerateExpression c none false
        let (elifBody, vars) ←
          match tb with
          | .block stmts => do
              let (lines, vars) ← pyToCppProcessList fuel vars stmts
              pure ((pyJoin "\n" ((lines.filter (· ≠ "")).map (fun l => "        " ++ l)), vars))
          | b => do
              let (s, vars) ← pyToCppProcessNode fuel vars b
              pure (((if s ≠ "" then "        " ++ s else ""), vars))
        let seg := "\n    else if (" ++ elifCondition ++ ") \x7b\n" ++ elifBody ++ "\n    \x7d"
        match fb2 with
        | some f => do
            let (suffix, vars) ← pyToCppFalseChain fuel vars f
            .ok (seg ++ suffix, vars)
        | none => .ok (seg, vars)
    | .block stmts => do
        let (lines, vars) ← pyToCppProcessList fuel vars stmts
        let elseBody := pyJoin "\n" ((lines.filter (· ≠ "")).map (fun l => "        " ++ l))
        .ok ("\n    else \x7b\n" ++ elseBody ++ "\n    \x7d", vars)
    | other => do
        let (s, vars) ← pyToCppProcessNode fuel vars other
        let elseBody := if s ≠ "" then "        " ++ s else ""
        .ok ("\n    else \x7b\n" ++ elseBody ++ "\n    \x7d", vars)
  termination_by structural a1 _ _ => a1

end

/-- The loop of `PythonToCppConverter.process_program`: note that the
membership test `stmt["var_name"] not in self.variables` runs AFTER
`process_node` has already added the variable, so the `declarations` branch
is unreachable for well-formed assignments. -/
def pyToCppProcessProgramAux :
    Nat → List Node → List String → List String → List String →
    Except String (List String × List String × List String)
  | _, [], vars, decls, outs => .ok (vars, decls, outs)
  | fuel, stmt :: rest, vars, decls, outs =>
    match pyToCppProcessNode fuel vars stmt with
    | .error e => .error e
    | .ok (result, vars') =>
      let (decls, outs) :=
        if result ≠ "" then
          match stmt with
          | .assignment n _ =>
              if !(vars'.contains n) then (decls ++ [pyRstrip result], outs)
              else (decls, outs ++ [pyRstrip result])
          | _ => (decls, outs ++ [pyRstrip result])
        else (decls, outs)
      pyToCppProcessProgramAux fuel rest vars' decls outs

/-- `PythonToCppConverter.generate_code`: process the program, then emit the
fixed C++ scaffold with the collected declarations and statements. -/
def pyToCppGenerateCode (fuel : Nat) (ast : Node) : Except String String :=
  match
    (match ast with
     | .program stmts => pyToCppProcessProgramAux fuel stmts [] [] []
     | _ => .ok (([], [], [])))
  with
  | .error e => .error e
  | .ok (_, decls, outs) =>
      .ok ("#include <iostream>\n#include <string>\nusing namespace std;\n\nint main() \x7b\n" ++
           pyJoin "\n" decls ++ "\n" ++ pyJoin "\n" outs ++ "\n    return 0;\n\x7d")

/-! ## Semantic models and concrete programs used by the verification

`cppLoopCmp`/`cppLoopValues` give the execution semantics of a C++
`for (init; cond; inc)` loop over integers — the sequence of values the loop
variable takes.  `pyRangeLen`/`pyRange` give the semantics of Python's
built-in `range(start, stop, step)`.  Both are needed to compare the value
sequences on the two sides of a translated bounded loop. -/

/-- The four comparison operators a bounded C++ loop condition may use. -/
def cppLoopCmp (op : String) (i bound : Int) : Bool :=
  if op = "<" then i < bound
  else if op = "<=" then i ≤ bound
  else if op = ">" then i > bound
  else if op = ">=" then i ≥ bound
  else false

/-- The value sequence of `for (i = start; i op bound; i += step)`, fuel-bounded. -/
def cppLoopValues : Nat → Int → String → Int → Int → List Int
  | 0, _, _, _, _ => []
  | fuel+1, i, op, bound, step =>
      if cppLoopCmp op i bound then i :: cppLoopValues fuel (i + step) op bound step
      else []

/-- The length of Python's `range(start, stop, step)`. -/
def pyRangeLen (start stop step : Int) : Nat :=
  if step > 0 then ((stop - start + step - 1).toNat) / step.toNat
  else if step < 0 then ((start - stop - step - 1).toNat) / (-step).toNat
  else 0

/-- The value sequence of Python's `range(start, stop, step)`. -/
def pyRange (start stop step : Int) : List Int :=
  (List.range (pyRangeLen start stop step)).map (fun k => start + step * k)

/-- An integer-expression evaluator for the shared AST: the common meaning of
a parsed arithmetic expression on either side, used to compare the values
computed by two differently-shaped assignment nodes. -/
def evalIntExpr (env : String → Int) : Node → Option Int
  | .number v =>
      match pyInt v with
      | .ok n => some n
      | .error _ => none
  | .identifier x => some (env x)
  | .binaryExpression op l r => do
      let a ← evalIntExpr env l
      let b ← evalIntExpr env r
      if op = "+" then some (a + b)
      else if op = "-" then some (a - b)
      else if op = "*" then some (a * b)
      else none
  | _ => none

/-- The integer an assignment node stores into its variable, under `env`. -/
def evalAssignedValue (env : String → Int) : Node → Option Int
  | .assignment _ e => evalIntExpr env e
  | _ => none

/-- A C++-side program whose analysis yields exactly one warning and no
error: a declaration followed by a statement of an unsupported kind. -/
def c1Ast : Node :=
  .program [.variableDeclaration "int" "x" (some (.number "5")), .unsupported "FOO"]

/-- The C++ loop `for (int i = 10; i > 0; i--) { x++; }`, which iterates
i = 10, 9, ..., 1. -/
def loopC2 : Node :=
  .forLoopC (.variableDeclaration "int" "i" (some (.number "10")))
    (.binaryExpression ">" (.identifier "i") (.number "0"))
    (some (.increment "i" "--"))
    (.block [.expressionStatement (.increment "x" "++")])

/-- The C++-side parse of `x -= 2 - 3;`: the right-hand side is grouped as
`x - (2 - 3)`. -/
def c3NodeCompound : Node :=
  .assignment "x" (.binaryExpression "-" (.identifier "x")
    (.binaryExpression "-" (.number "2") (.number "3")))

/-- The C++-side parse of `x = x - 2 - 3;`: the flat left-to-right chain
groups as `(x - 2) - 3`. -/
def c3NodeExpanded : Node :=
  .assignment "x" (.binaryExpression "-"
    (.binaryExpression "-" (.identifier "x") (.number "2")) (.number "3"))

/-- The token stream the C++ lexer produces for `x %= 2;`: `%=` is missing
from the COMPOUND_ASSIGNMENT alternatives, so it lexes as `%` then `=`. -/
def c3PercentTokens : List Token :=
  [⟨"IDENTIFIER", "x"⟩, ⟨"ARITHMETIC_OPERATOR", "%"⟩, ⟨"ARITHMETIC_OPERATOR", "="⟩,
   ⟨"NUMBER", "2"⟩, ⟨"SEMICOLON", ";"⟩]

/-- The Python program `x = input("Enter: ")` followed by `x = int(x)`. -/
def c8Prog : Node :=
  .program
    [ .assignment "x" (.functionCall "input" [.stringLiteral "\"Enter: \""]),
      .assignment "x" (.functionCall "int" [.identifier "x"]) ]

/-- The C++ text the converter produces for `c8Prog`. -/
def c8Out : String :=
  "#include <iostream>\n#include <string>\nusing namespace std;\n\nint main() \x7b\n\n    string x;\n    cout << \"Enter: \";\n    cin >> x;\n    return 0;\n\x7d"

/-- The `node["type"]` strings `Converter.generate_node` dispatches on. -/
def cppGenHandledTags : List String :=
  ["PROGRAM", "FUNCTION_DEFINITION", "IO_STATEMENT", "VARIABLE_DECLARATION",
   "ASSIGNMENT", "EXPRESSION_STATEMENT", "FOR_LOOP", "WHILE_LOOP", "INCREMENT",
   "BINARY_EXPRESSION", "STRING_LITERAL", "NUMBER", "IDENTIFIER",
   "RETURN_STATEMENT", "IF_STATEMENT"]

/-- The `node["type"]` strings `PythonToCppConverter.process_node` dispatches on. -/
def pyToCppProcessHandledTags : List String :=
  ["ASSIGNMENT", "PRINT_STATEMENT", "IF_STATEMENT", "WHILE_LOOP", "FOR_LOOP", "BLOCK"]

/-- The `node["type"]` strings `PythonToCppConverter.generate_expression`
dispatches on. -/
def pyToCppExprHandledTags : List String :=
  ["STRING_LITERAL", "IDENTIFIER", "NUMBER", "BINARY_EXPRESSION", "FUNCTION_CALL"]

/-- Reference emission for `process_program`, written from the spec's words:
statement containers preserve source order, so every statement's rendered
text is emitted into a single output list in source order, and nothing is
routed to a separate declarations list.  To be compared with
`pyToCppProcessProgramAux`, which was translated from the source. -/
def orderedEmissionSpec : Nat → List Node → List String →
    Except String (List String × List String)
  | _, [], vars => .ok ([], vars)
  | fuel, stmt :: rest, vars =>
      match pyToCppProcessNode fuel vars stmt with
      | .error e => .error e
      | .ok (result, vars') =>
          match orderedEmissionSpec fuel rest vars' with
          | .error e => .error e
          | .ok (others, vars'') =>
              .ok ((if result ≠ "" then [pyRstrip result] else []) ++ others, vars'')

/-! ## Theorems -/

/-- Appending a name to a list makes `contains` find it. -/
theorem listContainsAppendSelf (l : List String) (a : String) :
    (l ++ [a]).contains a = true := by
  induction l with
  | nil => simp
  | cons b bs ih => simp_all

/-- A successful regular assignment leaves the assigned variable in the
variable set. -/
theorem pyToCppRegularAssignment_contains (vars : List String) (n : String) (e : Node)
    (s : String) (vars' : List String)
    (h : pyToCppRegularAssignment vars n e = .ok (s, vars')) :
    vars'.contains n = true := by
  unfold pyToCppRegularAssignment at h
  obtain ⟨code, hg⟩ : ∃ c, pyToCppGenerateExpression e (some n) false = .ok c := by
    cases hg : pyToCppGenerateExpression e (some n) false with
    | error msg => rw [hg] at h; exact absurd h (by simp)
    | ok c => exact ⟨c, rfl⟩
  rw [hg] at h
  by_cases hc : vars.contains n = true
  · simp only [hc, Bool.not_true, Bool.false_eq_true, if_false] at h
    simp only [Except.ok.injEq, Prod.mk.injEq] at h
    obtain ⟨-, h2⟩ := h
    subst h2
    exact hc
  · have hcf : vars.contains n = false := by simpa using hc
    simp only [hcf, Bool.not_false, if_true] at h
    have h2 : vars' = vars ++ [n] := by
      by_cases h1 : pyToCppDetermineValueType e = "string" <;>
        by_cases h3 : pyStartsWith code "    cout" = true <;>
        by_cases h4 : pyToCppDetermineValueType e = "number" <;>
        simp_all
    subst h2
    exact listContainsAppendSelf vars n

set_option maxHeartbeats 1000000 in
/-- A successful `process_node` on an assignment leaves the assigned variable
in the variable set — `self.variables.add(var_name)` runs inside
`process_node`, before `process_program` tests membership. -/
theorem pyToCppProcessNode_assignment_contains (fuel : Nat) (vars : List String)
    (n : String) (e : Node) (s : String) (vars' : List String)
    (h : pyToCppProcessNode fuel vars (.assignment n e) = .ok (s, vars')) :
    vars'.contains n = true := by
  match fuel with
  | 0 => simp [pyToCppProcessNode] at h
  | fuel+1 =>
    cases e
    case binaryExpression op l r =>
      cases l
      case identifier lv =>
        replace h :
            (if op ∈ ["+", "-", "*", "/", "%"] ∧ lv = n then
               match pyToCppGenerateExpression r none false with
               | .error err => .error err
               | .ok right =>
                 if !(vars.contains n) then
                   let vars2 := vars ++ [n]
                   let vt := pyToCppDetermineValueType r
                   if vt = "string" then
                     Except.ok ("    string " ++ n ++ " = " ++ right ++ ";\n    " ++ n ++ " " ++ op ++ "= " ++ right ++ ";", vars2)
                   else if vt = "number" then
                     Except.ok ("    int " ++ n ++ " = " ++ right ++ ";\n    " ++ n ++ " " ++ op ++ "= " ++ right ++ ";", vars2)
                   else
                     Except.ok ("    auto " ++ n ++ " = " ++ right ++ ";\n    " ++ n ++ " " ++ op ++ "= " ++ right ++ ";", vars2)
                 else Except.ok ("    " ++ n ++ " " ++ op ++ "= " ++ right ++ ";", vars)
             else pyToCppRegularAssignment vars n (.binaryExpression op (.identifier lv) r))
            = .ok (s, vars') := h
        split at h
        · cases hg : pyToCppGenerateExpression r none false with
          | error err => rw [hg] at h; exact absurd h (by simp)
          | ok right =>
            rw [hg] at h
            by_cases hc : vars.contains n = true
            · simp only [hc, Bool.not_true, Bool.false_eq_true, if_false] at h
              simp only [Except.ok.injEq, Prod.mk.injEq] at h
              obtain ⟨-, h2⟩ := h
              subst h2
              exact hc
            · have hcf : vars.contains n = false := by simpa using hc
              simp only [hcf, Bool.not_false, if_true] at h
              have h2 : vars' = vars ++ [n] := by
                split_ifs at h <;> (simp only [Except.ok.injEq, Prod.mk.injEq] at h; exact h.2.symm)
              subst h2
              exact listContainsAppendSelf vars n
        · exact pyToCppRegularAssignment_contains _ _ _ _ _ h
      all_goals (simp only [pyToCppProcessNode] at h; exact pyToCppRegularAssignment_contains _ _ _ _ _ h)
    all_goals (simp only [pyToCppProcessNode] at h; exact pyToCppRegularAssignment_contains _ _ _ _ _ h)

set_option maxHeartbeats 1000000 in
/-- C7: code generation preserves source statement order.  The loop of
`process_program` agrees with the order-preserving reference emission: the
rendered statements are appended to the `statements` output in source order,
and the `declarations` list is never touched — the declarations split tests
`stmt["var_name"] not in self.variables` only after `process_node` has added
the name, so no statement is ever routed out of order. -/
theorem c7_process_program_preserves_order (fuel : Nat) (stmts : List Node)
    (vars decls outs : List String) :
    pyToCppProcessProgramAux fuel stmts vars decls outs
      = (orderedEmissionSpec fuel stmts vars).map (fun p => (p.2, decls, outs ++ p.1)) := by
  induction stmts generalizing vars outs with
  | nil => simp [pyToCppProcessProgramAux, orderedEmissionSpec, Except.map]
  | cons stmt rest ih =>
      rw [pyToCppProcessProgramAux, orderedEmissionSpec]
      cases hp : pyToCppProcessNode fuel vars stmt with
      | error e => rfl
      | ok pr =>
          obtain ⟨result, vars'⟩ := pr
          by_cases hr : result = ""
          · simp only [hr, ne_eq, not_true_eq_false, if_false]
            cases ho : orderedEmissionSpec fuel rest vars' with
            | error e => rw [ih, ho]; try rfl
            | ok pr2 =>
                obtain ⟨os, v2⟩ := pr2
                rw [ih, ho]
                simp [Except.map]
          · cases stmt <;>
              first
                | (simp only [hr, ne_eq, not_false_eq_true, if_true]
                   cases ho : orderedEmissionSpec fuel rest vars' with
                   | error e => rw [ih, ho]; try rfl
                   | ok pr2 =>
                       obtain ⟨os, v2⟩ := pr2
                       rw [ih, ho]
                       simp [Except.map, List.append_assoc])
                | (rename_i nm e2
                   have hcont := pyToCppProcessNode_assignment_contains fuel vars nm e2 result vars' hp
                   simp only [hr, ne_eq, not_false_eq_true, if_true, hcont, Bool.not_true,
                     Bool.false_eq_true, if_false]
                   cases ho : orderedEmissionSpec fuel rest vars' with
                   | error e => rw [ih, ho]; try rfl
                   | ok pr2 =>
                       obtain ⟨os, v2⟩ := pr2
                       rw [ih, ho]
                       simp [Except.map, List.append_assoc])

/-- C10: a node whose `"type"` is outside a generator's dispatched set is
rendered as the empty string by both code generators (and by the converter's
expression generator), with no diagnostic — the unsupported construct is
silently dropped. -/
theorem c10_unhandled_tags_render_empty (fuel : Nat) (ctx : CppGenCtx)
    (stmts ps : List Node) (pos : Nat) (vars : List String)
    (targetVar : Option String) (wrapBinary : Bool) (node : Node) :
    (node.tag ∉ cppGenHandledTags →
        cppGenNode (fuel+1) ctx node stmts pos ps = .ok "")
    ∧ (node.tag ∉ pyToCppProcessHandledTags →
        pyToCppProcessNode (fuel+1) vars node = .ok ("", vars))
    ∧ (node.tag ∉ pyToCppExprHandledTags →
        pyToCppGenerateExpression node targetVar wrapBinary = .ok "") := by
  refine ⟨fun h => ?_, fun h => ?_, fun h => ?_⟩
  · cases node <;>
      first
        | rfl
        | (rename_i t
           replace h : ¬(t ∈ cppGenHandledTags) := h
           simp only [cppGenHandledTags, List.mem_cons, List.not_mem_nil, or_false,
             not_or] at h
           obtain ⟨h1, h2, h3, h4, h5, h6, h7, h8, h9, h10, h11, h12, h13, h14, h15⟩ := h
           show cppGenUnsupported t = Except.ok ""
           simp [cppGenUnsupported, h1, h2, h3, h4, h5, h6, h7, h8, h9, h10, h11, h12,
             h13, h14, h15])
        | (exact absurd (by simp [Node.tag, cppGenHandledTags]) h)
  · cases node <;>
      first
        | rfl
        | (rename_i t
           replace h : ¬(t ∈ pyToCppProcessHandledTags) := h
           simp only [pyToCppProcessHandledTags, List.mem_cons, List.not_mem_nil,
             or_false, not_or] at h
           obtain ⟨h1, h2, h3, h4, h5, h6⟩ := h
           show pyToCppProcessUnsupported t vars = Except.ok ("", vars)
           simp [pyToCppProcessUnsupported, h1, h2, h3, h4, h5, h6])
        | (exact absurd (by simp [Node.tag, pyToCppProcessHandledTags]) h)
  · cases node <;>
      first
        | rfl
        | (rename_i t
           replace h : ¬(t ∈ pyToCppExprHandledTags) := h
           simp only [pyToCppExprHandledTags, List.mem_cons, List.not_mem_nil,
             or_false, not_or] at h
           obtain ⟨h1, h2, h3, h4, h5⟩ := h
           show pyToCppExprUnsupported t = Except.ok ""
           simp [pyToCppExprUnsupported, h1, h2, h3, h4, h5])
        | (exact absurd (by simp [Node.tag, pyToCppExprHandledTags]) h)

/-- C10 witness: a node of type `CLASS_DEFINITION` is outside every handled
set and renders as the empty string everywhere. -/
theorem c10_unhandled_tags_render_empty_witness :
    (Node.tag (.unsupported "CLASS_DEFINITION") ∉ cppGenHandledTags)
    ∧ cppGenNode 1 ⟨.program [], [], false⟩ (.unsupported "CLASS_DEFINITION") [] 0 [] = .ok ""
    ∧ pyToCppProcessNode 1 [] (.unsupported "CLASS_DEFINITION") = .ok ("", [])
    ∧ pyToCppGenerateExpression (.unsupported "CLASS_DEFINITION") none false = .ok "" := by
  refine ⟨by decide, ?_, ?_, ?_⟩
  · exact (c10_unhandled_tags_render_empty 0 ⟨.program [], [], false⟩ [] [] 0 [] none false
      (.unsupported "CLASS_DEFINITION")).1 (by decide)
  · exact (c10_unhandled_tags_render_empty 0 ⟨.program [], [], false⟩ [] [] 0 [] none false
      (.unsupported "CLASS_DEFINITION")).2.1 (by decide)
  · exact (c10_unhandled_tags_render_empty 0 ⟨.program [], [], false⟩ [] [] 0 [] none false
      (.unsupported "CLASS_DEFINITION")).2.2 (by decide)

/-- C1 counterexample: analysis of `c1Ast` yields a single diagnostic that is
a warning, not an error (no diagnostic starts with "Error"), yet
`generate_code` returns the empty string — while `generate_node` would have
rendered `x = 5` — because the gate `if errors:` tests the whole diagnostic
list, warnings included. -/
theorem c1_warning_alone_blocks_generation_cex :
    cppAnalyzeErrors 32 c1Ast = .ok ["Warning: Unsupported statement type 'FOO'."]
    ∧ (["Warning: Unsupported statement type 'FOO'."].all
        (fun d => !(pyStartsWith d "Error"))) = true
    ∧ cppGenerateCode 32 c1Ast false = .ok ""
    ∧ cppGenNode 32 ⟨c1Ast, [[("x", .vstr "int")]], false⟩ c1Ast [] 0 [] = .ok "x = 5" :=
  ⟨rfl, rfl, rfl, rfl⟩

/-- C1 (amended): generation is gated on the diagnostic list being empty, not
on it containing no errors — ANY non-empty diagnostic list, warnings
included, makes `generate_code` return the empty string. -/
theorem c1_nonempty_diagnostics_block_generation (fuel : Nat) (ast : Node) (useMain : Bool)
    (errs : List String) (st : Stack)
    (h : cppAnalyze fuel ast = .ok (errs, st)) (hne : errs ≠ []) :
    cppGenerateCode fuel ast useMain = .ok "" := by
  simp [cppGenerateCode, h, hne]

/-- C1 witness: the gate theorem applied to `c1Ast`, whose only diagnostic is
a warning. -/
theorem c1_nonempty_diagnostics_block_generation_witness :
    cppGenerateCode 32 c1Ast false = .ok "" :=
  c1_nonempty_diagnostics_block_generation 32 c1Ast false
    ["Warning: Unsupported statement type 'FOO'."] [[("x", .vstr "int")]] rfl (by decide)

set_option maxRecDepth 10000 in
/-- C2: the bounded-loop value sequence is NOT preserved for the `>`
direction.  The C++ loop `for (int i = 10; i > 0; i--)` takes the values
10, 9, ..., 1, but the generator's `>` branch swaps start and end and emits
`range(0, 10, -1)`, which enumerates nothing; `range(10, 0, -1)` would have
been the value-preserving translation. -/
theorem c2_descending_loop_emits_empty_range :
    cppGenNode 64 ⟨loopC2, [[]], false⟩ loopC2 [] 0 []
      = .ok "for i in range(0, 10, -1):\n    x += 1"
    ∧ cppLoopValues 32 10 ">" 0 (-1) = [10, 9, 8, 7, 6, 5, 4, 3, 2, 1]
    ∧ pyRange 0 10 (-1) = []
    ∧ pyRange 10 0 (-1) = [10, 9, 8, 7, 6, 5, 4, 3, 2, 1] := by
  refine ⟨?_, by decide, by decide, by decide⟩
  rfl

/-- C3 counterexample: `x -= 2 - 3;` and `x = x - 2 - 3;` parse to
differently-shaped assignment nodes — the compound form groups the desugared
right-hand side as `x - (2 - 3)` while the flat chain groups `(x - 2) - 3` —
and the two nodes assign different values (1 versus -5 from x = 0); moreover
`x %= 2;` cannot even be parsed, because `%=` is missing from the lexer's
COMPOUND_ASSIGNMENT alternatives. -/
theorem c3_compound_expansion_cex :
    cppTokenize 32 "x -= 2 - 3;" = .ok [⟨"IDENTIFIER", "x"⟩, ⟨"COMPOUND_ASSIGNMENT", "-="⟩,
      ⟨"NUMBER", "2"⟩, ⟨"ARITHMETIC_OPERATOR", "-"⟩, ⟨"NUMBER", "3"⟩, ⟨"SEMICOLON", ";"⟩]
    ∧ cppParseStatement 32 [⟨"IDENTIFIER", "x"⟩, ⟨"COMPOUND_ASSIGNMENT", "-="⟩,
        ⟨"NUMBER", "2"⟩, ⟨"ARITHMETIC_OPERATOR", "-"⟩, ⟨"NUMBER", "3"⟩, ⟨"SEMICOLON", ";"⟩] 0
      = .ok (c3NodeCompound, 6)
    ∧ cppTokenize 32 "x = x - 2 - 3;" = .ok [⟨"IDENTIFIER", "x"⟩, ⟨"ARITHMETIC_OPERATOR", "="⟩,
        ⟨"IDENTIFIER", "x"⟩, ⟨"ARITHMETIC_OPERATOR", "-"⟩, ⟨"NUMBER", "2"⟩,
        ⟨"ARITHMETIC_OPERATOR", "-"⟩, ⟨"NUMBER", "3"⟩, ⟨"SEMICOLON", ";"⟩]
    ∧ cppParseStatement 32 [⟨"IDENTIFIER", "x"⟩, ⟨"ARITHMETIC_OPERATOR", "="⟩,
        ⟨"IDENTIFIER", "x"⟩, ⟨"ARITHMETIC_OPERATOR", "-"⟩, ⟨"NUMBER", "2"⟩,
        ⟨"ARITHMETIC_OPERATOR", "-"⟩, ⟨"NUMBER", "3"⟩, ⟨"SEMICOLON", ";"⟩] 0
      = .ok (c3NodeExpanded, 8)
    ∧ c3NodeCompound ≠ c3NodeExpanded
    ∧ evalAssignedValue (fun _ => 0) c3NodeCompound = some 1
    ∧ evalAssignedValue (fun _ => 0) c3NodeExpanded = some (-5)
    ∧ cppTokenize 32 "x %= 2;" = .ok c3PercentTokens
    ∧ cppParseStatement 32 c3PercentTokens 0
      = .error "Expected '=' or compound assignment operator after identifier 'x' in assignment" := by
  refine ⟨rfl, rfl, rfl, rfl, ?_, rfl, rfl, rfl, rfl⟩
  simp [c3NodeCompound, c3NodeExpanded]

/-- C3 (amended): `x op= e` and `x = x op e` parse to identical assignment
nodes when `e` is a single literal or identifier (no further operators), for
the operators each side's lexer supports: `+ - * /` on the C++ side (`%=` is
not lexable) and `+ - * / %` on the Python side.  With a compound `e` the two
forms group differently and are not equivalent. -/
theorem c3_compound_single_term_equivalence (x v ty : String)
    (hty : ty = "NUMBER" ∨ ty = "IDENTIFIER") :
    (∀ op, op ∈ ["+", "-", "*", "/"] →
      (cppParseStatement 32 [⟨"IDENTIFIER", x⟩, ⟨"COMPOUND_ASSIGNMENT", op ++ "="⟩,
          ⟨ty, v⟩, ⟨"SEMICOLON", ";"⟩] 0).map Prod.fst
      = (cppParseStatement 32 [⟨"IDENTIFIER", x⟩, ⟨"ARITHMETIC_OPERATOR", "="⟩,
          ⟨"IDENTIFIER", x⟩, ⟨"ARITHMETIC_OPERATOR", op⟩, ⟨ty, v⟩,
          ⟨"SEMICOLON", ";"⟩] 0).map Prod.fst)
    ∧ (∀ op, op ∈ ["+", "-", "*", "/", "%"] →
      (pyParseStatement 32 [⟨"IDENTIFIER", x⟩, ⟨"ARITHMETIC_OPERATOR", op⟩,
          ⟨"ASSIGNMENT_OPERATOR", "="⟩, ⟨ty, v⟩] 0).map Prod.fst
      = (pyParseStatement 32 [⟨"IDENTIFIER", x⟩, ⟨"ASSIGNMENT_OPERATOR", "="⟩,
          ⟨"IDENTIFIER", x⟩, ⟨"ARITHMETIC_OPERATOR", op⟩, ⟨ty, v⟩] 0).map Prod.fst) := by
  constructor <;> intro op hop <;>
    simp only [List.mem_cons, List.not_mem_nil, or_false] at hop <;>
    rcases hty with h | h <;> subst h <;>
    first
      | (rcases hop with h | h | h | h <;> subst h <;> rfl)
      | (rcases hop with h | h | h | h | h <;> subst h <;> rfl)

/-- C3 witness: the amended equivalence at `x += 2` versus `x = x + 2`. -/
theorem c3_compound_single_term_equivalence_witness :
    ("NUMBER" = "NUMBER" ∨ "NUMBER" = "IDENTIFIER")
    ∧ (cppParseStatement 32 [⟨"IDENTIFIER", "x"⟩, ⟨"COMPOUND_ASSIGNMENT", "+" ++ "="⟩,
        ⟨"NUMBER", "2"⟩, ⟨"SEMICOLON", ";"⟩] 0).map Prod.fst
      = (cppParseStatement 32 [⟨"IDENTIFIER", "x"⟩, ⟨"ARITHMETIC_OPERATOR", "="⟩,
          ⟨"IDENTIFIER", "x"⟩, ⟨"ARITHMETIC_OPERATOR", "+"⟩, ⟨"NUMBER", "2"⟩,
          ⟨"SEMICOLON", ";"⟩] 0).map Prod.fst :=
  ⟨Or.inl rfl,
   (c3_compound_single_term_equivalence "x" "2" "NUMBER" (Or.inl rfl)).1 "+" (by decide)⟩

/-- C4: the Python-side tokenizer does NOT terminate on every input.  On the
input `"!"`, no pattern consumes the character, but the BITWISE_OPERATOR
pattern `&|\||~|^` contains an unescaped `^`, which `re.match` accepts as a
zero-width match at position 0: the lexer step yields an empty-lexeme token
and does not advance, so tokenization loops forever (every fuel bound is
exhausted) instead of raising the lex failure naming offset 0 that the claim
requires. -/
theorem c4_python_lexer_zero_width_nontermination :
    pyLexStep "!".data 0 = some ("BITWISE_OPERATOR", "", 0)
    ∧ ∀ fuel acc, pyTokenizeAux fuel "!".data 0 acc = .error "out of fuel" := by
  refine ⟨rfl, ?_⟩
  intro fuel
  induction fuel with
  | zero => intro acc; rfl
  | succ n ih =>
      intro acc
      have hstep : pyTokenizeAux (n+1) "!".data 0 acc
          = pyTokenizeAux n "!".data 0 (acc ++ [⟨"BITWISE_OPERATOR", ""⟩]) := rfl
      rw [hstep]
      exact ih _

/-- C5 counterexample: a name bound only in an OUTER frame still yields the
redeclaration error, not a shadowing warning — `_analyze_variable_declaration`
guards with `lookup_variable`, which searches all frames, and never reaches
`declare_variable`, whose shadowing-warning branch would have fired on this
very stack. -/
theorem c5_outer_shadow_reported_as_error_cex :
    cppAnalyzeVariableDeclaration "int" "x" none [] [[], [("x", VInfo.vstr "int")]]
      = .ok (["Error: Variable 'x' already declared."], [[], [("x", VInfo.vstr "int")]])
    ∧ cppDeclareVariable "x" (.vstr "int") [] false [[], [("x", VInfo.vstr "int")]]
      = (["Warning: Variable 'x' shadows a declaration in an outer scope."],
         [[], [("x", VInfo.vstr "int")]]) :=
  ⟨rfl, rfl⟩

/-- C5 (amended): declaring a variable whose name is bound in ANY frame of
the scope stack — the current one or an outer one — yields the redeclaration
error "already declared"; the shadowing-warning outcome is unreachable from
declaration analysis. -/
theorem c5_any_binding_yields_redeclaration_error (st : Stack) (errs : List String)
    (t name : String)
    (h : pyTruthyVInfo (cppLookupVariable st name) = true) :
    cppAnalyzeVariableDeclaration t name none errs st
      = .ok (errs ++ ["Error: Variable '" ++ name ++ "' already declared."], st) := by
  simp [cppAnalyzeVariableDeclaration, h]

/-- C5 witness: the amended theorem on a stack whose outer frame binds `x`. -/
theorem c5_any_binding_yields_redeclaration_error_witness :
    pyTruthyVInfo (cppLookupVariable [[], [("x", VInfo.vstr "int")]] "x") = true
    ∧ cppAnalyzeVariableDeclaration "int" "x" none [] [[], [("x", VInfo.vstr "int")]]
      = .ok ([] ++ ["Error: Variable '" ++ "x" ++ "' already declared."],
             [[], [("x", VInfo.vstr "int")]]) :=
  ⟨rfl, c5_any_binding_yields_redeclaration_error [[], [("x", VInfo.vstr "int")]] [] "int" "x" rfl⟩

/-- C6 counterexample: the Python-side analyzer keeps no symbol table at all —
analyzing a program that uses the never-declared identifier `x` (as a print
argument and as an assigned expression) yields ZERO diagnostics, refuting
"always produces an undeclared-use error" for that analyzer. -/
theorem c6_python_analyzer_no_undeclared_error_cex :
    pyAnalyze (.program [.printStatement [.identifier "x"]]) = .ok []
    ∧ pyAnalyze (.program [.assignment "y" (.identifier "x")]) = .ok [] :=
  ⟨rfl, rfl⟩

/-- C6 (amended): only the C++-side analyzer reports undeclared uses — an
identifier not bound in any frame of its scope stack yields the
"not declared" error at the use site; the Python-side analyzer performs
structural checks only and reports no undeclared-use errors. -/
theorem c6_cpp_undeclared_identifier_error (st : Stack) (x ctx : String)
    (errs : List String)
    (h : cppLookupVariable st x = none) :
    cppEvaluateExpressionType st (.identifier x) ctx errs
      = .ok (none, errs ++ ["Error: Variable '" ++ x ++ "' not declared in " ++ ctx ++ "."]) := by
  simp [cppEvaluateExpressionType, h]

/-- C6 witness: the undeclared-use error on an empty scope stack. -/
theorem c6_cpp_undeclared_identifier_error_witness :
    cppLookupVariable [[]] "x" = none
    ∧ cppEvaluateExpressionType [[]] (.identifier "x") "expression" []
      = .ok (none, [] ++ ["Error: Variable '" ++ "x" ++ "' not declared in " ++
             "expression" ++ "."]) :=
  ⟨rfl, c6_cpp_undeclared_identifier_error [[]] "x" "expression" [] rfl⟩

/-- C8 counterexample: the program `x = input("Enter: ")` followed by
`x = int(x)` converts to C++ that declares `string x` and reads into it with
no numeric conversion anywhere — the later `int(x)` statement is dropped
(its expression renders empty), so the promised "numeric-parsing read" never
appears. -/
theorem c8_later_int_conversion_ignored_cex :
    pyToCppGenerateCode 32 c8Prog = .ok c8Out
    ∧ pyContains c8Out "string x;" = true
    ∧ pyContains c8Out "int x" = false
    ∧ pyContains c8Out "int(" = false :=
  ⟨rfl, rfl, rfl, rfl⟩

/-- C8 (amended): the prompt-folding and the numeric typing both happen only
within a single assignment: `x = int(input("p"))` yields an `int x`
declaration with a printed prompt and a read into `x`, while a bare
`x = input("p")` yields the same prompt/read pair typed `string x`.  A later
separate `int(x)` conversion is not consulted. -/
theorem c8_input_prompt_expansion (fuel : Nat) (vars : List String) (x sval : String)
    (h : vars.contains x = false) :
    pyToCppProcessNode (fuel+1) vars (.assignment x (.functionCall "int"
        [.functionCall "input" [.stringLiteral sval]]))
      = .ok ("    int " ++ x ++ ";\n" ++ ("    cout << " ++
             ("\"" ++ (sval.drop 1).dropRight 1 ++ "\"") ++ ";\n    cin >> " ++ x ++ ";"),
             vars ++ [x])
    ∧ pyToCppProcessNode (fuel+1) vars (.assignment x (.functionCall "input" [.stringLiteral sval]))
      = .ok ("    string " ++ x ++ ";\n" ++ ("    cout << " ++
             ("\"" ++ (sval.drop 1).dropRight 1 ++ "\"") ++ ";\n    cin >> " ++ x ++ ";"),
             vars ++ [x]) := by
  constructor
  · show pyToCppRegularAssignment vars x (.functionCall "int"
        [.functionCall "input" [.stringLiteral sval]]) = _
    unfold pyToCppRegularAssignment
    rw [h]
    rfl
  · show pyToCppRegularAssignment vars x (.functionCall "input" [.stringLiteral sval]) = _
    unfold pyToCppRegularAssignment
    rw [h]
    rfl

/-- C8 witness: the in-assignment conversion `x = int(input("Enter: "))` on a
fresh variable set. -/
theorem c8_input_prompt_expansion_witness :
    ([] : List String).contains "x" = false
    ∧ pyToCppProcessNode 1 [] (.assignment "x" (.functionCall "int"
        [.functionCall "input" [.stringLiteral "\"Enter: \""]]))
      = .ok ("    int " ++ "x" ++ ";\n" ++ ("    cout << " ++
             ("\"" ++ (("\"Enter: \"".drop 1).dropRight 1) ++ "\"") ++ ";\n    cin >> " ++
             "x" ++ ";"), [] ++ ["x"]) :=
  ⟨rfl, (c8_input_prompt_expansion 0 [] "x" "\"Enter: \"" rfl).1⟩

/-- C9: the full C++-to-Python pipeline (tokenize, parse, analyze inside
`generate_code`, generate) maps `int x = 5;` to exactly `x = 5`, and the
variable-declaration rule ignores the declared type entirely — the rendered
text is the same whatever the type annotation was, so no generated
declaration carries one. -/
theorem c9_type_annotations_erased :
    ((cppTokenize 100 "int x = 5;").bind (fun t => (cppParseProgram 100 t).bind
        (fun p => cppGenerateCode 100 p false)) = .ok "x = 5")
    ∧ ∀ (fuel : Nat) (ctx : CppGenCtx) (t1 t2 x : String) (i : Option Node)
        (stmts : List Node) (pos : Nat) (ps : List Node),
        cppGenNode (fuel+1) ctx (.variableDeclaration t1 x i) stmts pos ps
          = cppGenNode (fuel+1) ctx (.variableDeclaration t2 x i) stmts pos ps := by
  refine ⟨rfl, ?_⟩
  intro fuel ctx t1 t2 x i stmts pos ps
  cases i <;> rfl
